import Mathlib

/-!
Verification of the natural-language specification of the `pyrin` Swagger
specification synthesizer (`src/pyrin/api/swagger/structs.py`,
class `ExtendedSwagger`) against a shallow embedding of its code.

Python dictionaries are embedded as insertion-ordered association lists;
`dget`, `dset` and `dsetdefault` mirror `d.get(k)`, `d[k] = v` and
`d.setdefault(k, v)` respectively.  Parameter objects are dictionaries from
string keys to scalar values (strings or booleans), exactly the shapes the
source manipulates.
-/

namespace Pyrin

/-- Scalar values stored in the dictionaries the synthesizer manipulates:
parameter attributes are strings (names, locations, types, formats,
descriptions) or booleans (`required`). -/
inductive Value where
  | str (s : String)
  | bool (b : Bool)
deriving DecidableEq, Repr

/-- `d.get(k)` on a Python dictionary: the value at the first matching key,
or `none` when the key is absent. -/
def dget {α : Type} {β : Type} [DecidableEq α] (d : List (α × β)) (k : α) : Option β :=
  match d with
  | [] => none
  | (k1, v1) :: rest => if k1 = k then some v1 else dget rest k

/-- `d[k] = v` on a Python dictionary: replace the value at an existing key
in place (keeping its position), or append the new pair at the end. -/
def dset {α : Type} {β : Type} [DecidableEq α] (d : List (α × β)) (k : α) (v : β) :
    List (α × β) :=
  match d with
  | [] => [(k, v)]
  | (k1, v1) :: rest => if k1 = k then (k, v) :: rest else (k1, v1) :: dset rest k v

/-- `d.setdefault(k, v)` on a Python dictionary: leave the dictionary
unchanged when the key is present, otherwise append the pair. -/
def dsetdefault {α : Type} {β : Type} [DecidableEq α] (d : List (α × β)) (k : α) (v : β) :
    List (α × β) :=
  if (dget d k).isSome then d else d ++ [(k, v)]


/-- Modelled from the spec: the `ParameterAttributeEnum` module
(`pyrin.api.swagger.enumerations`) is not part of the given sources; its
members are the parameter-object keys the spec lists in its data model
(`name`, `in`, `required`, `type`, `format`, `description`). -/
def ParameterAttributeEnum.NAME : String := "name"

def ParameterAttributeEnum.REQUIRED : String := "required"

def ParameterAttributeEnum.IN : String := "in"

def ParameterAttributeEnum.TYPE : String := "type"

def ParameterAttributeEnum.FORMAT : String := "format"

def ParameterAttributeEnum.DESCRIPTION : String := "description"

/-- Parameter locations, with the values listed in the docstring of
`ExtendedSwagger._add_parameter` (`PATH = 'path'`, `QUERY = 'query'`,
`JSON = 'json'`, `BODY = 'body'`). -/
def ParameterLocationEnum.PATH : String := "path"

def ParameterLocationEnum.QUERY : String := "query"

def ParameterLocationEnum.JSON : String := "json"

def ParameterLocationEnum.BODY : String := "body"

/-- Parameter types, with the values listed in the docstring of
`ExtendedSwagger._add_parameter` (`INTEGER = 'integer'`, `NUMBER = 'number'`,
`STRING = 'string'`, ...). -/
def ParameterTypeEnum.INTEGER : String := "integer"

def ParameterTypeEnum.NUMBER : String := "number"

def ParameterTypeEnum.STRING : String := "string"

/-- Parameter formats, with the values listed in the docstring of
`ExtendedSwagger._add_parameter` (`UUID = 'uuid'`, `FLOAT = 'float'`, ...). -/
def ParameterFormatEnum.UUID : String := "uuid"

def ParameterFormatEnum.FLOAT : String := "float"

/-- Modelled from the spec: `HTTPMethodEnum` (`pyrin.core.enumerations`) is
not part of the given sources; the members used by the synthesizer are the
standard HTTP verb names. -/
def HTTPMethodEnum.GET : String := "GET"

def HTTPMethodEnum.HEAD : String := "HEAD"

def HTTPMethodEnum.OPTIONS : String := "OPTIONS"

/-- Modelled from the spec: `ClientErrorResponseCodeEnum`
(`pyrin.core.enumerations`) is not part of the given sources; the spec names
the injected responses as status `401` (authentication failed) and `403`
(permission denied). -/
def ClientErrorResponseCodeEnum.UNAUTHORIZED : Nat := 401

def ClientErrorResponseCodeEnum.FORBIDDEN : Nat := 403

/-- Declared type of a route path argument, as inspected by
`_add_or_fix_required_parameters` (`argument_type is int / float / str /
UUID`); `other` covers every other outcome of `get_argument_type`. -/
inductive ArgType where
  | int
  | float
  | str
  | uuid
  | other
deriving DecidableEq, Repr

/-- A parameter object: a Python dictionary from attribute names to scalar
values, insertion ordered. -/
abbrev Param := List (String × Value)

/-- Route metadata consumed by the synthesizer, per the spec data model: the
route table is an external collaborator exposing `arguments`,
`required_arguments`, `get_argument_type`, `is_paged`, the protected flag
(`isinstance(rule, ProtectedRoute)`), `permissions` and `status_code`. -/
structure Rule where
  arguments : List String
  required_arguments : List String
  get_argument_type : String → ArgType
  is_paged : Bool
  is_protected : Bool
  permissions : List String
  status_code : Option Nat

/-- External collaborators read by `_fix_metadata`: the locale/timezone
parameter names from the request class, the configured paging field names
(`paging_services.get_paging_param_names`), the configured
`securityDefinitions` scheme names, the verb-based default status code
resolver (`status_services.get_status_code`) and the tag resolver
(`swagger_services.get_tags`). -/
structure Env where
  locale_param_name : String
  timezone_param_name : String
  page_param_name : String
  page_size_param_name : String
  security_definitions : Option (List String)
  get_status_code : String → Nat
  get_tags : Rule → String → List String

/-- The raw specification fragment ("swag"): the sections of the docstring
dictionary that `_fix_metadata` reads or writes.  `none` means the key is
absent from the dictionary (`setdefault` materializes it). -/
structure Swag where
  parameters : Option (List Param)
  responses : Option (List (Nat × Param))
  security : Option (List String)
  tags : Option (List String)
deriving DecidableEq, Repr

/-- The `parameters` section as `_get_parameters_section` yields it
(defaulting to the empty list). -/
def Swag.params_of (s : Swag) : List Param := s.parameters.getD []

/-- The `responses` section as `_get_responses_section` yields it
(defaulting to the empty dictionary). -/
def Swag.responses_of (s : Swag) : List (Nat × Param) := s.responses.getD []

/-- Write back the `parameters` section. -/
def Swag.set_params (s : Swag) (ps : List Param) : Swag := { s with parameters := some ps }

/-- `ExtendedSwagger._get_parameter`: the first parameter object whose
`name` attribute equals the given name, or `None`. -/
def get_parameter (name : String) (parameters : List Param) : Option Param :=
  match parameters with
  | [] => none
  | p :: rest =>
    if dget p ParameterAttributeEnum.NAME = some (Value.str name) then some p
    else get_parameter name rest

/-- The new parameter dictionary built by `ExtendedSwagger._add_parameter`:
keys `name`, `required`, `in` always, then `type`, `format`, `description`
only when a value was supplied. -/
def build_new_param (name : String) (type_ : Option String) (in_ : String)
    (required : Bool) (format_ : Option String) (description : Option String) : Param :=
  let base : Param := [(ParameterAttributeEnum.NAME, Value.str name),
                       (ParameterAttributeEnum.REQUIRED, Value.bool required),
                       (ParameterAttributeEnum.IN, Value.str in_)]
  let base := match type_ with
    | some t => base ++ [(ParameterAttributeEnum.TYPE, Value.str t)]
    | none => base
  let base := match format_ with
    | some f => base ++ [(ParameterAttributeEnum.FORMAT, Value.str f)]
    | none => base
  match description with
  | some d => base ++ [(ParameterAttributeEnum.DESCRIPTION, Value.str d)]
  | none => base

/-- `ExtendedSwagger._add_parameter`: ignore the new parameter when one with
the same name already exists (returning `False`), otherwise prepend it when
`add_first` is set and append it otherwise (returning `True`). -/
def add_parameter (parameters : List Param) (name : String) (type_ : Option String)
    (in_ : String) (required : Bool) (description : Option String)
    (format_ : Option String) (add_first : Bool) : Bool × List Param :=
  match get_parameter name parameters with
  | some _ => (false, parameters)
  | none =>
    let new_param := build_new_param name type_ in_ required format_ description
    if add_first then (true, new_param :: parameters)
    else (true, parameters ++ [new_param])

/-- In-place mutation of the parameter object `_get_parameter` returned:
the first object in the list whose `name` equals the given name is replaced
by its image under `f`; everything else keeps its position. -/
def update_parameter (name : String) (f : Param → Param) : List Param → List Param
  | [] => []
  | p :: rest =>
    if dget p ParameterAttributeEnum.NAME = some (Value.str name) then f p :: rest
    else p :: update_parameter name f rest

/-- The membership tests `name in rule.arguments` / `name in required_args`
performed on a value read out of a parameter dictionary: only a string value
can be a member of a set of strings (`None` never is). -/
def name_in_args (name : Option Value) (args : List String) : Bool :=
  match name with
  | some (Value.str s) => decide (s ∈ args)
  | _ => false

/-- `ExtendedSwagger._get_param_location`: `path` for url parameters of the
rule, `query` when the upper-cased verb is `HEAD`, `GET` or `OPTIONS`, and
`json` otherwise. -/
def get_param_location (name : Option Value) (rule : Rule) (verb : String) : String :=
  if name_in_args name rule.arguments then ParameterLocationEnum.PATH
  else if verb.toUpper = HTTPMethodEnum.HEAD ∨ verb.toUpper = HTTPMethodEnum.GET ∨
          verb.toUpper = HTTPMethodEnum.OPTIONS then ParameterLocationEnum.QUERY
  else ParameterLocationEnum.JSON

/-- `rule.required_arguments.union(rule.arguments)` of
`_add_or_fix_required_parameters` and `_fix_optional_parameters`: a Python
set union, embedded as a duplicate-free list. -/
def union_args (rule : Rule) : List String :=
  (rule.required_arguments ++ rule.arguments).dedup

/-- The `type_` / `format_` pair `_add_or_fix_required_parameters` infers
for a required argument: only path parameters are typed, from the declared
argument type (`int` → integer, `float` → number/float, `str` → string,
`UUID` → string/uuid, anything else untyped). -/
def required_param_type (rule : Rule) (name : String) (in_ : String) :
    Option String × Option String :=
  if in_ = ParameterLocationEnum.PATH then
    match rule.get_argument_type name with
    | ArgType.int => (some ParameterTypeEnum.INTEGER, none)
    | ArgType.float => (some ParameterTypeEnum.NUMBER, some ParameterFormatEnum.FLOAT)
    | ArgType.str => (some ParameterTypeEnum.STRING, none)
    | ArgType.uuid => (some ParameterTypeEnum.STRING, some ParameterFormatEnum.UUID)
    | ArgType.other => (none, none)
  else (none, none)

/-- The in-place fix `_add_or_fix_required_parameters` applies to an already
existing entry: force `required = True`, then fill `in`, `type` and `format`
only when absent (and only when a value was inferred). -/
def fix_existing_param (in_ : String) (tf : Option String × Option String)
    (p : Param) : Param :=
  let p := dset p ParameterAttributeEnum.REQUIRED (Value.bool true)
  let p := dsetdefault p ParameterAttributeEnum.IN (Value.str in_)
  let p := match tf.1 with
    | some t => dsetdefault p ParameterAttributeEnum.TYPE (Value.str t)
    | none => p
  match tf.2 with
  | some f => dsetdefault p ParameterAttributeEnum.FORMAT (Value.str f)
  | none => p

/-- One iteration of the loop in `_add_or_fix_required_parameters`: try to
add the required parameter first in the list; when it already existed,
mutate the existing entry in place. -/
def add_or_fix_one (rule : Rule) (verb : String) (params : List Param)
    (name : String) : List Param :=
  let in_ := get_param_location (some (Value.str name)) rule verb
  let tf := required_param_type rule name in_
  match add_parameter params name tf.1 in_ true none tf.2 true with
  | (true, ps) => ps
  | (false, _) => update_parameter name (fix_existing_param in_ tf) params

/-- `ExtendedSwagger._add_or_fix_required_parameters`. -/
def add_or_fix_required_parameters (rule : Rule) (verb : String) (swag : Swag) : Swag :=
  swag.set_params ((union_args rule).foldl (add_or_fix_one rule verb) swag.params_of)

/-- The body of the loop in `_fix_optional_parameters`: entries named by a
required or path argument are skipped; the rest default `required` to
`False` and `in` to the resolved location, only when unset. -/
def fix_optional_one (rule : Rule) (verb : String) (item : Param) : Param :=
  let name := dget item ParameterAttributeEnum.NAME
  if name_in_args name (union_args rule) then item
  else
    let item := dsetdefault item ParameterAttributeEnum.REQUIRED (Value.bool false)
    dsetdefault item ParameterAttributeEnum.IN
      (Value.str (get_param_location name rule verb))

/-- `ExtendedSwagger._fix_optional_parameters`. -/
def fix_optional_parameters (rule : Rule) (verb : String) (swag : Swag) : Swag :=
  swag.set_params (swag.params_of.map (fix_optional_one rule verb))

/-- `ExtendedSwagger._add_paging_parameters`: when the rule is paged, add
two optional integer query parameters named by the configured paging field
names; otherwise the fragment is untouched. -/
def add_paging_parameters (env : Env) (rule : Rule) (verb : String) (swag : Swag) : Swag :=
  if rule.is_paged then
    let ps := swag.params_of
    let ps := (add_parameter ps env.page_param_name (some ParameterTypeEnum.INTEGER)
      ParameterLocationEnum.QUERY false (some "page number to be get.") none false).2
    let ps := (add_parameter ps env.page_size_param_name (some ParameterTypeEnum.INTEGER)
      ParameterLocationEnum.QUERY false (some "page size to be get.") none false).2
    swag.set_params ps
  else swag

/-- `ExtendedSwagger._add_locale_parameter`. -/
def add_locale_parameter (env : Env) (rule : Rule) (verb : String) (swag : Swag) : Swag :=
  swag.set_params ((add_parameter swag.params_of env.locale_param_name
    (some ParameterTypeEnum.STRING) ParameterLocationEnum.QUERY false
    (some "request locale to be sent. for example en, fa, fr ...") none false).2)

/-- `ExtendedSwagger._add_timezone_parameter`. -/
def add_timezone_parameter (env : Env) (rule : Rule) (verb : String) (swag : Swag) : Swag :=
  swag.set_params ((add_parameter swag.params_of env.timezone_param_name
    (some ParameterTypeEnum.STRING) ParameterLocationEnum.QUERY false
    (some "request timezone to be sent. for example UTC, Asia/Tehran ...") none false).2)

/-- `ExtendedSwagger._add_security_definitions`: for a protected rule with a
non-empty configured `securityDefinitions`, append one `{name: []}` item per
scheme name to the security section (no de-duplication). -/
def add_security_definitions (env : Env) (rule : Rule) (verb : String) (swag : Swag) :
    Swag :=
  if rule.is_protected then
    match env.security_definitions with
    | some defs =>
      if 0 < defs.length then { swag with security := some ((swag.security.getD []) ++ defs) }
      else swag
    | none => swag
  else swag

/-- The fixed response dictionary `_add_authentication_failed_response`
synthesizes. -/
def authentication_failed_dict : Param :=
  [(ParameterAttributeEnum.DESCRIPTION, Value.str "user has not been authenticated.")]

/-- The fixed response dictionary `_add_permission_denied_response`
synthesizes. -/
def permission_denied_dict : Param :=
  [(ParameterAttributeEnum.DESCRIPTION,
    Value.str "you do not have the required permissions to access this resource.")]

/-- The fixed response dictionary `_add_successful_response` synthesizes. -/
def successful_dict : Param :=
  [(ParameterAttributeEnum.DESCRIPTION, Value.str "successful execution of service.")]

/-- `ExtendedSwagger._add_authentication_failed_response`: protected rules
get a 401 response, without overwriting an existing one. -/
def add_authentication_failed_response (rule : Rule) (verb : String) (swag : Swag) : Swag :=
  if rule.is_protected then
    { swag with responses := some (dsetdefault swag.responses_of
        ClientErrorResponseCodeEnum.UNAUTHORIZED authentication_failed_dict) }
  else swag

/-- `ExtendedSwagger._add_permission_denied_response`: protected rules with
at least one permission get a 403 response, without overwriting an existing
one. -/
def add_permission_denied_response (rule : Rule) (verb : String) (swag : Swag) : Swag :=
  if rule.is_protected ∧ 0 < rule.permissions.length then
    { swag with responses := some (dsetdefault swag.responses_of
        ClientErrorResponseCodeEnum.FORBIDDEN permission_denied_dict) }
  else swag

/-- The success status code `_add_successful_response` resolves: the rule's
explicit code, else the verb-based default from the status service. -/
def resolved_status_code (env : Env) (rule : Rule) (verb : String) : Nat :=
  match rule.status_code with
  | some c => c
  | none => env.get_status_code verb.toUpper

/-- `ExtendedSwagger._add_successful_response`. -/
def add_successful_response (env : Env) (rule : Rule) (verb : String) (swag : Swag) : Swag :=
  { swag with responses := some (dsetdefault swag.responses_of
      (resolved_status_code env rule verb) successful_dict) }

/-- `ExtendedSwagger._add_tags`: extend the tag section with the resolver's
tags when it returned any. -/
def add_tags (env : Env) (rule : Rule) (verb : String) (swag : Swag) : Swag :=
  let tags := env.get_tags rule verb.toUpper
  if 0 < tags.length then { swag with tags := some ((swag.tags.getD []) ++ tags) }
  else swag


/-- `ExtendedSwagger._fix_metadata`: the ten fix-up steps in source order. -/
def fix_metadata (env : Env) (rule : Rule) (verb : String) (swag : Swag) : Swag :=
  let swag := add_or_fix_required_parameters rule verb swag
  let swag := fix_optional_parameters rule verb swag
  let swag := add_paging_parameters env rule verb swag
  let swag := add_locale_parameter env rule verb swag
  let swag := add_timezone_parameter env rule verb swag
  let swag := add_security_definitions env rule verb swag
  let swag := add_authentication_failed_response rule verb swag
  let swag := add_permission_denied_response rule verb swag
  let swag := add_successful_response env rule verb swag
  add_tags env rule verb swag

/-- The effect of `_fix_metadata` on the `parameters` section alone, as a
list transformer: required-parameter reconciliation, optional-parameter
fixing, then the paging, locale and timezone additions (the security,
response and tag steps do not touch parameters). -/
def params_pipeline (env : Env) (rule : Rule) (verb : String) (ps : List Param) :
    List Param :=
  let ps := (union_args rule).foldl (add_or_fix_one rule verb) ps
  let ps := ps.map (fix_optional_one rule verb)
  let ps := if rule.is_paged then
      (add_parameter ((add_parameter ps env.page_param_name
        (some ParameterTypeEnum.INTEGER) ParameterLocationEnum.QUERY false
        (some "page number to be get.") none false).2) env.page_size_param_name
        (some ParameterTypeEnum.INTEGER) ParameterLocationEnum.QUERY false
        (some "page size to be get.") none false).2
    else ps
  let ps := (add_parameter ps env.locale_param_name (some ParameterTypeEnum.STRING)
    ParameterLocationEnum.QUERY false
    (some "request locale to be sent. for example en, fa, fr ...") none false).2
  (add_parameter ps env.timezone_param_name (some ParameterTypeEnum.STRING)
    ParameterLocationEnum.QUERY false
    (some "request timezone to be sent. for example UTC, Asia/Tehran ...") none false).2

/-- The body of one match attempt of the placeholder regular expression
`(<([^<>]*:)?([^<>]*)>)` after an opening `<`: the characters up to the
closing `>`, failing when a `<` or the end of the string intervenes. -/
def take_until_gt : List Char → Option (List Char × List Char)
  | [] => none
  | c :: rest =>
    if c = '>' then some ([], rest)
    else if c = '<' then none
    else (take_until_gt rest).map (fun cr => (c :: cr.1, cr.2))

/-- Group 3 of the placeholder pattern: `([^<>]*:)?` is greedy, so it eats
everything up to the last colon of the placeholder body and group 3 is what
follows it (the whole body when there is no colon). -/
def after_last_colon (l : List Char) : List Char :=
  (l.reverse.takeWhile (fun c => c ≠ ':')).reverse

/-- `re.findall('(<([^<>]*:)?([^<>]*)>)', srule)` as `get_apispecs` uses it:
each element is the full placeholder match (group 1) paired with the
argument name (group 3).  The scanner tries every position; this yields the
same match list as the non-overlapping regex scan because a placeholder body
contains no `<`, so no further match can start inside a match. -/
def scan_placeholders : List Char → List (List Char × List Char)
  | [] => []
  | c :: rest =>
    if c = '<' then
      match take_until_gt rest with
      | some cr =>
        ('<' :: cr.1 ++ ['>'], after_last_colon cr.1) :: scan_placeholders rest
      | none => scan_placeholders rest
    else scan_placeholders rest

/-- Python `str.replace(old, new)`, fuel-recursive so that it reduces
definitionally: replace every non-overlapping occurrence of `old` (written
as head `oh` plus tail `ot`, since the sources only replace non-empty
placeholder strings) left to right.  Every step consumes at least one
character, so fuel equal to the length of the scanned list suffices and the
fuel-exhausted fallback is never reached. -/
def replace_all_aux (oh : Char) (ot new : List Char) : Nat → List Char → List Char
  | _, [] => []
  | 0, l => l
  | fuel + 1, c :: rest =>
    if (oh :: ot).isPrefixOf (c :: rest) then
      new ++ replace_all_aux oh ot new fuel (rest.drop ot.length)
    else c :: replace_all_aux oh ot new fuel rest

/-- Python `str.replace(old, new)` on character lists. -/
def replace_all (oh : Char) (ot new : List Char) (l : List Char) : List Char :=
  replace_all_aux oh ot new l.length l

/-- The placeholder rewriting loop of `get_apispecs`: for every match of the
placeholder pattern, replace the full placeholder (everywhere) by the
argument name wrapped in braces. -/
def normalize_placeholders (l : List Char) : List Char :=
  (scan_placeholders l).foldl
    (fun acc fn =>
      match fn.1 with
      | [] => acc
      | h :: t =>
        replace_all h t (Char.ofNat 123 :: fn.2 ++ [Char.ofNat 125]) acc) l

/-- The path-key computation of `get_apispecs` (source lines 672-697): the
reverse-proxy prefix `swaggerUiPrefix` of the template is prepended to the
rule (an absent template key means the empty prefix), then the template's
`basePath` — when present and non-empty, with one trailing slash removed,
and still non-empty — is stripped from the front when it is a prefix of the
result, and finally every placeholder is rewritten to `{name}` form.
Strings are handled as their character lists (Python slicing and prefix
tests are character-based). -/
def get_path_key (swagger_ui_pre : Option String) (base_path : Option String)
    (rule_str : String) : String :=
  let pre := swagger_ui_pre.getD ""
  let srule := (pre ++ rule_str).toList
  let srule :=
    match base_path with
    | none => srule
    | some bp =>
      if bp = "" then srule
      else
        let bpl := bp.toList
        let bpl := if bpl.getLast? = some '/' then bpl.dropLast else bpl
        if bpl ≠ [] ∧ bpl.isPrefixOf srule then srule.drop bpl.length else srule
  String.mk (normalize_placeholders srule)

/-- Sample route for concrete evaluations: one integer path argument `id`,
not paged, not protected. -/
def rule_id_int : Rule :=
  { arguments := ["id"], required_arguments := [],
    get_argument_type := fun _ => ArgType.int, is_paged := false,
    is_protected := false, permissions := [], status_code := none }

/-- Sample paged route for concrete evaluations. -/
def rule_paged : Rule :=
  { arguments := [], required_arguments := [],
    get_argument_type := fun _ => ArgType.other, is_paged := true,
    is_protected := false, permissions := [], status_code := none }

/-- Sample protected route with one permission. -/
def rule_protected_perms : Rule :=
  { arguments := [], required_arguments := [],
    get_argument_type := fun _ => ArgType.other, is_paged := false,
    is_protected := true, permissions := ["users.read"], status_code := none }

/-- Sample protected route without permissions. -/
def rule_protected_noperms : Rule :=
  { arguments := [], required_arguments := [],
    get_argument_type := fun _ => ArgType.other, is_paged := false,
    is_protected := true, permissions := [], status_code := none }

/-- Sample external environment for concrete evaluations. -/
def sample_env : Env :=
  { locale_param_name := "locale", timezone_param_name := "timezone",
    page_param_name := "page", page_size_param_name := "page_size",
    security_definitions := some ["oauth"],
    get_status_code := fun _ => 200, get_tags := fun _ _ => [] }

/-- Sample fragment declaring one untyped parameter named `filter`. -/
def swag_filter : Swag :=
  { parameters := some [[("name", Value.str "filter")]], responses := none,
    security := none, tags := none }

/-- Sample fragment that already declares a parameter named `id` with an
author-provided `in` location. -/
def swag_id_query : Swag :=
  { parameters := some [[("name", Value.str "id"), ("in", Value.str "query")]],
    responses := none, security := none, tags := none }

/-- Sample fragment whose author already supplied a 401 response with an
empty description. -/
def swag_empty_desc_401 : Swag :=
  { parameters := none,
    responses := some [(401, [("description", Value.str "")])],
    security := none, tags := none }

/-- Sample empty fragment. -/
def swag_empty : Swag :=
  { parameters := none, responses := none, security := none, tags := none }

/-- Handler functions are opaque to the caching and resolution logic; only
their identity matters, so they are embedded as strings. -/
abbrev Handler := String

/-- The attributes of `method.__dict__.get('view_class')` that the verb
resolution loop of `get_specs` (source lines 744-760) inspects:
`hasattr(klass, 'verb')` with the value of that literally-named attribute,
`hasattr(klass, 'dispatch_request')` with its value, and
`getattr(klass, verb, None)` for an arbitrary verb name.  An attribute that
exists may still hold `None`, hence the `Option` values. -/
structure Klass where
  has_verb_attr : Bool
  verb_attr : Option Handler
  has_dispatch_request : Bool
  dispatch_request_attr : Option Handler
  method_attr : String → Option Handler

/-- One entry of the `methods` dictionary built by `get_specs`: the callable
stored for the verb and its `view_class` attribute, if any. -/
structure MethodInfo where
  initial : Option Handler
  view_class : Option Klass

/-- The view-function resolution of `get_specs` for one verb (source lines
747-753): prefer the class attribute named `verb` for non-method-views,
then `dispatch_request`, then fall back to `getattr(klass, verb, None)`
when everything so far is `None`. -/
def locate_view_func (is_mv : Bool) (mi : MethodInfo) (verb : String) : Option Handler :=
  let method :=
    match mi.view_class with
    | some k =>
      if is_mv = false ∧ k.has_verb_attr then k.verb_attr
      else if k.has_dispatch_request then k.dispatch_request_attr
      else mi.initial
    | none => mi.initial
  match method with
  | some h => some h
  | none =>
    match mi.view_class with
    | some k => k.method_attr verb
    | none => none

/-- The per-verb loop of `get_specs` (source lines 744-760), up to the point
where a view function has been located: a verb whose handler cannot be found
raises `RuntimeError('Cannot detect view_func for rule {0}')` unless the
endpoint is a valid method view, in which case the verb is skipped. -/
def get_specs_verbs (rule_str : String) (is_mv : Bool) :
    List (String × MethodInfo) → Except String (List (String × Handler))
  | [] => Except.ok []
  | (verb, mi) :: rest =>
    match locate_view_func is_mv mi verb with
    | some h => (get_specs_verbs rule_str is_mv rest).map (fun l => (verb, h) :: l)
    | none =>
      if is_mv then get_specs_verbs rule_str is_mv rest
      else Except.error ("Cannot detect view_func for rule " ++ rule_str)

/-- An assembled api-specs document.  Its contents are opaque to the caching
logic of `get_apispecs`, so it is embedded as an abstract token. -/
abbrev ApiDoc := Nat

/-- The inputs of `ExtendedSwagger.get_apispecs` besides the cache: the
application debug flag, the endpoints of `config['specs']`, and the full
document assembly (config reading, `get_specs`, per-route operation
assembly) abstracted as a function from the endpoint to the document it
would build from the current route table and docstrings. -/
structure BuildEnv where
  debug : Bool
  spec_endpoints : List String
  assemble : String → ApiDoc

/-- The caching skeleton of `ExtendedSwagger.get_apispecs` (source lines
456-479 and 706-707): return the cached document when not in debug mode and
the endpoint is cached; otherwise fail when the endpoint is not configured,
else assemble the document, store it in the cache and return it. -/
def get_apispecs (env : BuildEnv) (apispecs : List (String × ApiDoc)) (endpoint : String) :
    Except String (ApiDoc × List (String × ApiDoc)) :=
  match (if env.debug then none else dget apispecs endpoint) with
  | some cached => Except.ok (cached, apispecs)
  | none =>
    if endpoint ∈ env.spec_endpoints then
      let data := env.assemble endpoint
      Except.ok (data, dset apispecs endpoint data)
    else
      Except.error ("Can`t find specs by endpoint [" ++ endpoint ++
        "], check your flasgger`s configs.")

/-- The location and inferred type/format pair `_add_or_fix_required_parameters`
computes for a required argument name; both passes of `_fix_metadata` compute
the same value. -/
def required_meta (rule : Rule) (verb : String) (name : String) :
    String × Option String × Option String :=
  let in_ := get_param_location (some (Value.str name)) rule verb
  (in_, required_param_type rule name in_)

/-- Invariant of a parameter list after required-parameter reconciliation for
one name: the first entry with that name exists, is required, has a location,
and has a type/format whenever reconciliation would infer one. -/
def first_fixed (rule : Rule) (verb : String) (name : String) (ps : List Param) : Prop :=
  ∃ p, get_parameter name ps = some p ∧
    dget p ParameterAttributeEnum.REQUIRED = some (Value.bool true) ∧
    (dget p ParameterAttributeEnum.IN).isSome = true ∧
    ((required_meta rule verb name).2.1.isSome = true →
      (dget p ParameterAttributeEnum.TYPE).isSome = true) ∧
    ((required_meta rule verb name).2.2.isSome = true →
      (dget p ParameterAttributeEnum.FORMAT).isSome = true)

/-- Invariant of a parameter object after optional-parameter fixing: it is
named by a required or path argument (and was skipped), or its `required`
and `in` keys are populated. -/
def opt_fixed (rule : Rule) (p : Param) : Prop :=
  name_in_args (dget p ParameterAttributeEnum.NAME) (union_args rule) = true ∨
    ((dget p ParameterAttributeEnum.REQUIRED).isSome = true ∧
     (dget p ParameterAttributeEnum.IN).isSome = true)

/-- No entry of the parameter list is named `nm`. -/
def no_name (nm : String) (ps : List Param) : Prop :=
  ∀ q ∈ ps, dget q ParameterAttributeEnum.NAME ≠ some (Value.str nm)

/-- Shape of a parameter list in which the reconciled required parameter
`nm` leads every entry that is not itself required: the unique entry named
`nm` carries the inferred attributes, everything before it is a required
entry with a different name, and nothing after it is named `nm`. -/
def required_led (rule : Rule) (verb : String) (nm : String) (ps : List Param) : Prop :=
  ∃ l1 p l2, ps = l1 ++ p :: l2 ∧
    dget p ParameterAttributeEnum.NAME = some (Value.str nm) ∧
    dget p ParameterAttributeEnum.REQUIRED = some (Value.bool true) ∧
    dget p ParameterAttributeEnum.IN =
      some (Value.str (required_meta rule verb nm).1) ∧
    dget p ParameterAttributeEnum.TYPE =
      (required_meta rule verb nm).2.1.map Value.str ∧
    dget p ParameterAttributeEnum.FORMAT =
      (required_meta rule verb nm).2.2.map Value.str ∧
    (∀ q ∈ l1, dget q ParameterAttributeEnum.NAME ≠ some (Value.str nm) ∧
      dget q ParameterAttributeEnum.REQUIRED = some (Value.bool true)) ∧
    (∀ q ∈ l2, dget q ParameterAttributeEnum.NAME ≠ some (Value.str nm))

section DictLemmas

variable {α : Type} {β : Type} [DecidableEq α]

@[simp] theorem dget_nil (k : α) : dget ([] : List (α × β)) k = none := rfl

theorem dget_dset_self (d : List (α × β)) (k : α) (v : β) :
    dget (dset d k v) k = some v := by
  induction d with
  | nil => simp [dget, dset]
  | cons hd tl ih =>
    obtain ⟨k1, v1⟩ := hd
    by_cases h : k1 = k
    · simp [dget, dset, h]
    · simp [dget, dset, h, ih]

theorem dget_dset_ne (d : List (α × β)) (k k2 : α) (v : β) (h : k2 ≠ k) :
    dget (dset d k v) k2 = dget d k2 := by
  induction d with
  | nil => simp [dget, dset, Ne.symm h]
  | cons hd tl ih =>
    obtain ⟨k1, v1⟩ := hd
    by_cases h1 : k1 = k
    · subst h1
      simp [dget, dset, Ne.symm h]
    · by_cases h2 : k1 = k2
      · subst h2
        simp [dget, dset, h1]
      · simp [dget, dset, h1, h2, ih]

theorem dset_eq_self (d : List (α × β)) (k : α) (v : β) (h : dget d k = some v) :
    dset d k v = d := by
  induction d with
  | nil => simp [dget] at h
  | cons hd tl ih =>
    obtain ⟨k1, v1⟩ := hd
    by_cases h1 : k1 = k
    · subst h1
      simp [dget] at h
      simp [dset, h]
    · simp [dget, h1] at h
      simp [dset, h1, ih h]

theorem dget_append_of_none (d1 d2 : List (α × β)) (k : α) (h : dget d1 k = none) :
    dget (d1 ++ d2) k = dget d2 k := by
  induction d1 with
  | nil => simp
  | cons hd tl ih =>
    obtain ⟨k1, v1⟩ := hd
    by_cases h1 : k1 = k
    · simp [dget, h1] at h
    · simp [dget, h1] at h ⊢
      exact ih h

theorem dget_append_of_some (d1 d2 : List (α × β)) (k : α) (v : β)
    (h : dget d1 k = some v) : dget (d1 ++ d2) k = some v := by
  induction d1 with
  | nil => simp [dget] at h
  | cons hd tl ih =>
    obtain ⟨k1, v1⟩ := hd
    by_cases h1 : k1 = k
    · simp [dget, h1] at h ⊢
      exact h
    · simp [dget, h1] at h ⊢
      exact ih h

theorem dsetdefault_of_isSome (d : List (α × β)) (k : α) (v : β)
    (h : (dget d k).isSome) : dsetdefault d k v = d := by
  simp [dsetdefault, h]

theorem dget_dsetdefault_self (d : List (α × β)) (k : α) (v : β) :
    dget (dsetdefault d k v) k = some ((dget d k).getD v) := by
  unfold dsetdefault
  cases h : dget d k with
  | none =>
    simp [h, dget_append_of_none d [(k, v)] k h, dget]
  | some w => simp [h]

theorem isSome_dget_dsetdefault (d : List (α × β)) (k : α) (v : β) :
    (dget (dsetdefault d k v) k).isSome := by
  simp [dget_dsetdefault_self]

theorem dget_dsetdefault_ne (d : List (α × β)) (k k2 : α) (v : β) (h : k2 ≠ k) :
    dget (dsetdefault d k v) k2 = dget d k2 := by
  unfold dsetdefault
  cases hh : dget d k with
  | some w => simp [hh]
  | none =>
    simp only [Option.isSome_none, Bool.false_eq_true, if_false]
    cases h2 : dget d k2 with
    | none =>
      simp [dget_append_of_none d [(k, v)] k2 h2, dget, Ne.symm h]
    | some w =>
      simp [dget_append_of_some d [(k, v)] k2 w h2]

theorem dget_dsetdefault_of_none (d : List (α × β)) (k : α) (v : β)
    (h : dget d k = none) : dget (dsetdefault d k v) k = some v := by
  simp [dget_dsetdefault_self, h]

theorem dget_dsetdefault_of_some (d : List (α × β)) (k k2 : α) (v w : β)
    (h : dget d k2 = some w) : dget (dsetdefault d k v) k2 = some w := by
  by_cases hk : k2 = k
  · subst hk
    rw [dget_dsetdefault_self, h]
    rfl
  · rw [dget_dsetdefault_ne _ _ _ _ hk]
    exact h

end DictLemmas

section ParamLemmas

theorem build_new_param_name (n : String) (t : Option String) (i : String) (r : Bool)
    (f : Option String) (d : Option String) :
    dget (build_new_param n t i r f d) ParameterAttributeEnum.NAME = some (Value.str n) := by
  cases t <;> cases f <;> cases d <;> rfl

theorem build_new_param_required (n : String) (t : Option String) (i : String) (r : Bool)
    (f : Option String) (d : Option String) :
    dget (build_new_param n t i r f d) ParameterAttributeEnum.REQUIRED =
      some (Value.bool r) := by
  cases t <;> cases f <;> cases d <;> rfl

theorem build_new_param_in (n : String) (t : Option String) (i : String) (r : Bool)
    (f : Option String) (d : Option String) :
    dget (build_new_param n t i r f d) ParameterAttributeEnum.IN = some (Value.str i) := by
  cases t <;> cases f <;> cases d <;> rfl

theorem build_new_param_type (n : String) (t : Option String) (i : String) (r : Bool)
    (f : Option String) (d : Option String) :
    dget (build_new_param n t i r f d) ParameterAttributeEnum.TYPE = t.map Value.str := by
  cases t <;> cases f <;> cases d <;> rfl

theorem build_new_param_format (n : String) (t : Option String) (i : String) (r : Bool)
    (f : Option String) (d : Option String) :
    dget (build_new_param n t i r f d) ParameterAttributeEnum.FORMAT = f.map Value.str := by
  cases t <;> cases f <;> cases d <;> rfl

theorem get_parameter_none_iff (n : String) (ps : List Param) :
    get_parameter n ps = none ↔
      ∀ p ∈ ps, dget p ParameterAttributeEnum.NAME ≠ some (Value.str n) := by
  induction ps with
  | nil => simp [get_parameter]
  | cons p rest ih =>
    by_cases h : dget p ParameterAttributeEnum.NAME = some (Value.str n)
    · simp [get_parameter, h]
    · simp [get_parameter, h, ih]

theorem get_parameter_append_of_none (n : String) (l1 l2 : List Param)
    (h : get_parameter n l1 = none) :
    get_parameter n (l1 ++ l2) = get_parameter n l2 := by
  induction l1 with
  | nil => simp
  | cons p rest ih =>
    by_cases h1 : dget p ParameterAttributeEnum.NAME = some (Value.str n)
    · simp [get_parameter, h1] at h
    · simp [get_parameter, h1] at h ⊢
      exact ih h

theorem get_parameter_append_of_some (n : String) (l1 l2 : List Param) (p : Param)
    (h : get_parameter n l1 = some p) :
    get_parameter n (l1 ++ l2) = some p := by
  induction l1 with
  | nil => simp [get_parameter] at h
  | cons q rest ih =>
    by_cases h1 : dget q ParameterAttributeEnum.NAME = some (Value.str n)
    · simp [get_parameter, h1] at h ⊢
      exact h
    · simp [get_parameter, h1] at h ⊢
      exact ih h

theorem get_parameter_decomp (n : String) (ps : List Param) (p : Param)
    (h : get_parameter n ps = some p) :
    ∃ l1 l2, ps = l1 ++ p :: l2 ∧
      (∀ q ∈ l1, dget q ParameterAttributeEnum.NAME ≠ some (Value.str n)) ∧
      dget p ParameterAttributeEnum.NAME = some (Value.str n) := by
  induction ps with
  | nil => simp [get_parameter] at h
  | cons q rest ih =>
    by_cases h1 : dget q ParameterAttributeEnum.NAME = some (Value.str n)
    · simp [get_parameter, h1] at h
      subst h
      exact ⟨[], rest, by simp, by simp, h1⟩
    · simp [get_parameter, h1] at h
      obtain ⟨l1, l2, heq, hl1, hp⟩ := ih h
      exact ⟨q :: l1, l2, by simp [heq], by simpa [h1] using hl1, hp⟩

theorem get_parameter_map (n : String) (f : Param → Param) (ps : List Param)
    (hf : ∀ q, dget (f q) ParameterAttributeEnum.NAME = dget q ParameterAttributeEnum.NAME) :
    get_parameter n (ps.map f) = (get_parameter n ps).map f := by
  induction ps with
  | nil => simp [get_parameter]
  | cons q rest ih =>
    by_cases h1 : dget q ParameterAttributeEnum.NAME = some (Value.str n)
    · simp [get_parameter, hf q, h1]
    · simp [get_parameter, hf q, h1, ih]

theorem add_parameter_of_some (ps : List Param) (n : String) (t : Option String)
    (i : String) (r : Bool) (d : Option String) (f : Option String) (af : Bool)
    (h : (get_parameter n ps).isSome) :
    add_parameter ps n t i r d f af = (false, ps) := by
  unfold add_parameter
  cases hg : get_parameter n ps with
  | none => rw [hg] at h; simp at h
  | some p => simp

theorem add_parameter_of_none_first (ps : List Param) (n : String) (t : Option String)
    (i : String) (r : Bool) (d : Option String) (f : Option String)
    (h : get_parameter n ps = none) :
    add_parameter ps n t i r d f true = (true, build_new_param n t i r f d :: ps) := by
  unfold add_parameter
  rw [h]
  simp

theorem add_parameter_of_none_append (ps : List Param) (n : String) (t : Option String)
    (i : String) (r : Bool) (d : Option String) (f : Option String)
    (h : get_parameter n ps = none) :
    add_parameter ps n t i r d f false = (true, ps ++ [build_new_param n t i r f d]) := by
  unfold add_parameter
  rw [h]
  simp

theorem get_parameter_add_ne (ps : List Param) (n n2 : String) (t : Option String)
    (i : String) (r : Bool) (d : Option String) (f : Option String) (af : Bool)
    (hne : n ≠ n2) :
    get_parameter n2 (add_parameter ps n t i r d f af).2 = get_parameter n2 ps := by
  cases hg : get_parameter n ps with
  | some p =>
    rw [add_parameter_of_some ps n t i r d f af (by simp [hg])]
  | none =>
    cases af with
    | true =>
      rw [add_parameter_of_none_first ps n t i r d f hg]
      have hname := build_new_param_name n t i r f d
      simp only [get_parameter, hname]
      rw [if_neg (by simp [hne])]
    | false =>
      rw [add_parameter_of_none_append ps n t i r d f hg]
      cases h2 : get_parameter n2 ps with
      | some p =>
        exact get_parameter_append_of_some n2 ps [build_new_param n t i r f d] p h2
      | none =>
        rw [get_parameter_append_of_none n2 ps [build_new_param n t i r f d] h2]
        simp only [get_parameter, build_new_param_name n t i r f d]
        rw [if_neg (by simp [hne])]

theorem get_parameter_add_self_of_none (ps : List Param) (n : String) (t : Option String)
    (i : String) (r : Bool) (d : Option String) (f : Option String) (af : Bool)
    (h : get_parameter n ps = none) :
    get_parameter n (add_parameter ps n t i r d f af).2 =
      some (build_new_param n t i r f d) := by
  cases af with
  | true =>
    rw [add_parameter_of_none_first ps n t i r d f h]
    simp [get_parameter, build_new_param_name n t i r f d]
  | false =>
    rw [add_parameter_of_none_append ps n t i r d f h]
    rw [get_parameter_append_of_none n ps [build_new_param n t i r f d] h]
    simp [get_parameter, build_new_param_name n t i r f d]

theorem get_parameter_add_of_some (ps : List Param) (n n2 : String) (t : Option String)
    (i : String) (r : Bool) (d : Option String) (f : Option String) (af : Bool)
    (p : Param) (h : get_parameter n2 ps = some p) :
    get_parameter n2 (add_parameter ps n t i r d f af).2 = some p := by
  by_cases hne : n = n2
  · subst hne
    rw [add_parameter_of_some ps n t i r d f af (by simp [h])]
    exact h
  · rw [get_parameter_add_ne ps n n2 t i r d f af hne]
    exact h

theorem update_parameter_of_none (n : String) (f : Param → Param) (ps : List Param)
    (h : get_parameter n ps = none) : update_parameter n f ps = ps := by
  induction ps with
  | nil => rfl
  | cons q rest ih =>
    by_cases h1 : dget q ParameterAttributeEnum.NAME = some (Value.str n)
    · simp [get_parameter, h1] at h
    · simp [get_parameter, h1] at h
      simp [update_parameter, h1, ih h]

theorem update_parameter_middle (n : String) (f : Param → Param) (l1 l2 : List Param)
    (p : Param) (hl1 : ∀ q ∈ l1, dget q ParameterAttributeEnum.NAME ≠ some (Value.str n))
    (hp : dget p ParameterAttributeEnum.NAME = some (Value.str n)) :
    update_parameter n f (l1 ++ p :: l2) = l1 ++ f p :: l2 := by
  induction l1 with
  | nil => simp [update_parameter, hp]
  | cons q rest ih =>
    have hq : dget q ParameterAttributeEnum.NAME ≠ some (Value.str n) := hl1 q (by simp)
    simp only [List.cons_append, update_parameter, if_neg hq]
    exact congrArg (List.cons q) (ih (fun r hr => hl1 r (by simp [hr])))

theorem update_parameter_eq_self (n : String) (f : Param → Param) (ps : List Param)
    (p : Param) (h : get_parameter n ps = some p) (hfp : f p = p) :
    update_parameter n f ps = ps := by
  induction ps with
  | nil => simp [get_parameter] at h
  | cons q rest ih =>
    by_cases h1 : dget q ParameterAttributeEnum.NAME = some (Value.str n)
    · simp [get_parameter, h1] at h
      simp [update_parameter, h1, h ▸ hfp]
    · simp [get_parameter, h1] at h
      simp [update_parameter, h1, ih h]

theorem get_parameter_update_self (n : String) (f : Param → Param) (ps : List Param)
    (p : Param) (h : get_parameter n ps = some p)
    (hf : dget (f p) ParameterAttributeEnum.NAME = dget p ParameterAttributeEnum.NAME) :
    get_parameter n (update_parameter n f ps) = some (f p) := by
  induction ps with
  | nil => simp [get_parameter] at h
  | cons q rest ih =>
    by_cases h1 : dget q ParameterAttributeEnum.NAME = some (Value.str n)
    · simp [get_parameter, h1] at h
      subst h
      simp [update_parameter, get_parameter, h1, hf]
    · simp [get_parameter, h1] at h
      simp [update_parameter, get_parameter, h1, ih h]

theorem get_parameter_update_ne (n n2 : String) (f : Param → Param) (ps : List Param)
    (hne : n2 ≠ n)
    (hf : ∀ q, dget (f q) ParameterAttributeEnum.NAME = dget q ParameterAttributeEnum.NAME) :
    get_parameter n2 (update_parameter n f ps) = get_parameter n2 ps := by
  induction ps with
  | nil => rfl
  | cons q rest ih =>
    by_cases h1 : dget q ParameterAttributeEnum.NAME = some (Value.str n)
    · have h2 : dget (f q) ParameterAttributeEnum.NAME ≠ some (Value.str n2) := by
        rw [hf q, h1]
        simp
        intro hc
        exact hne hc.symm
      have h3 : dget q ParameterAttributeEnum.NAME ≠ some (Value.str n2) := by
        rw [h1]
        simp
        intro hc
        exact hne hc.symm
      simp [update_parameter, get_parameter, h1, h2, h3, Ne.symm hne]
    · simp [update_parameter, get_parameter, h1, ih]

theorem mem_update_parameter (n : String) (f : Param → Param) (ps : List Param)
    (q : Param) (h : q ∈ update_parameter n f ps) :
    q ∈ ps ∨ ∃ r ∈ ps, q = f r := by
  induction ps with
  | nil => simp [update_parameter] at h
  | cons x rest ih =>
    by_cases h1 : dget x ParameterAttributeEnum.NAME = some (Value.str n)
    · simp [update_parameter, h1] at h
      rcases h with h | h
      · exact Or.inr ⟨x, by simp, h⟩
      · exact Or.inl (by simp [h])
    · simp [update_parameter, h1] at h
      rcases h with h | h
      · exact Or.inl (by simp [h])
      · rcases ih h with hh | ⟨r, hr, hq⟩
        · exact Or.inl (by simp [hh])
        · exact Or.inr ⟨r, by simp [hr], hq⟩

end ParamLemmas

section FixLemmas

theorem fix_existing_param_other (i : String) (tf : Option String × Option String)
    (p : Param) (k : String) (h1 : k ≠ ParameterAttributeEnum.REQUIRED)
    (h2 : k ≠ ParameterAttributeEnum.IN) (h3 : k ≠ ParameterAttributeEnum.TYPE)
    (h4 : k ≠ ParameterAttributeEnum.FORMAT) :
    dget (fix_existing_param i tf p) k = dget p k := by
  obtain ⟨t, f⟩ := tf
  cases t <;> cases f <;>
    simp only [fix_existing_param, dget_dsetdefault_ne _ _ _ _ h2,
      dget_dsetdefault_ne _ _ _ _ h3, dget_dsetdefault_ne _ _ _ _ h4,
      dget_dset_ne _ _ _ _ h1]

theorem fix_existing_param_name (i : String) (tf : Option String × Option String)
    (p : Param) :
    dget (fix_existing_param i tf p) ParameterAttributeEnum.NAME =
      dget p ParameterAttributeEnum.NAME :=
  fix_existing_param_other i tf p _ (by decide) (by decide) (by decide) (by decide)

theorem fix_existing_param_required (i : String) (tf : Option String × Option String)
    (p : Param) :
    dget (fix_existing_param i tf p) ParameterAttributeEnum.REQUIRED =
      some (Value.bool true) := by
  obtain ⟨t, f⟩ := tf
  cases t <;> cases f <;>
    simp only [fix_existing_param,
      dget_dsetdefault_ne _ _ _ _ (show ParameterAttributeEnum.REQUIRED ≠
        ParameterAttributeEnum.IN by decide),
      dget_dsetdefault_ne _ _ _ _ (show ParameterAttributeEnum.REQUIRED ≠
        ParameterAttributeEnum.TYPE by decide),
      dget_dsetdefault_ne _ _ _ _ (show ParameterAttributeEnum.REQUIRED ≠
        ParameterAttributeEnum.FORMAT by decide),
      dget_dset_self]

theorem fix_existing_param_in (i : String) (tf : Option String × Option String)
    (p : Param) :
    dget (fix_existing_param i tf p) ParameterAttributeEnum.IN =
      some ((dget p ParameterAttributeEnum.IN).getD (Value.str i)) := by
  obtain ⟨t, f⟩ := tf
  cases t <;> cases f <;>
    simp only [fix_existing_param,
      dget_dsetdefault_ne _ _ _ _ (show ParameterAttributeEnum.IN ≠
        ParameterAttributeEnum.TYPE by decide),
      dget_dsetdefault_ne _ _ _ _ (show ParameterAttributeEnum.IN ≠
        ParameterAttributeEnum.FORMAT by decide),
      dget_dsetdefault_self,
      dget_dset_ne _ _ _ _ (show ParameterAttributeEnum.IN ≠
        ParameterAttributeEnum.REQUIRED by decide)]

theorem fix_existing_param_type_some (i : String) (t : String) (f : Option String)
    (p : Param) :
    dget (fix_existing_param i (some t, f) p) ParameterAttributeEnum.TYPE =
      some ((dget p ParameterAttributeEnum.TYPE).getD (Value.str t)) := by
  cases f <;>
    simp only [fix_existing_param,
      dget_dsetdefault_ne _ _ _ _ (show ParameterAttributeEnum.TYPE ≠
        ParameterAttributeEnum.FORMAT by decide),
      dget_dsetdefault_self,
      dget_dsetdefault_ne _ _ _ _ (show ParameterAttributeEnum.TYPE ≠
        ParameterAttributeEnum.IN by decide),
      dget_dset_ne _ _ _ _ (show ParameterAttributeEnum.TYPE ≠
        ParameterAttributeEnum.REQUIRED by decide)]

theorem fix_existing_param_type_none (i : String) (f : Option String) (p : Param) :
    dget (fix_existing_param i (none, f) p) ParameterAttributeEnum.TYPE =
      dget p ParameterAttributeEnum.TYPE := by
  cases f <;>
    simp only [fix_existing_param,
      dget_dsetdefault_ne _ _ _ _ (show ParameterAttributeEnum.TYPE ≠
        ParameterAttributeEnum.FORMAT by decide),
      dget_dsetdefault_ne _ _ _ _ (show ParameterAttributeEnum.TYPE ≠
        ParameterAttributeEnum.IN by decide),
      dget_dset_ne _ _ _ _ (show ParameterAttributeEnum.TYPE ≠
        ParameterAttributeEnum.REQUIRED by decide)]

theorem fix_existing_param_format_some (i : String) (t : Option String) (f : String)
    (p : Param) :
    dget (fix_existing_param i (t, some f) p) ParameterAttributeEnum.FORMAT =
      some ((dget p ParameterAttributeEnum.FORMAT).getD (Value.str f)) := by
  cases t <;>
    simp only [fix_existing_param,
      dget_dsetdefault_self,
      dget_dsetdefault_ne _ _ _ _ (show ParameterAttributeEnum.FORMAT ≠
        ParameterAttributeEnum.TYPE by decide),
      dget_dsetdefault_ne _ _ _ _ (show ParameterAttributeEnum.FORMAT ≠
        ParameterAttributeEnum.IN by decide),
      dget_dset_ne _ _ _ _ (show ParameterAttributeEnum.FORMAT ≠
        ParameterAttributeEnum.REQUIRED by decide)]

theorem fix_existing_param_format_none (i : String) (t : Option String) (p : Param) :
    dget (fix_existing_param i (t, none) p) ParameterAttributeEnum.FORMAT =
      dget p ParameterAttributeEnum.FORMAT := by
  cases t <;>
    simp only [fix_existing_param,
      dget_dsetdefault_ne _ _ _ _ (show ParameterAttributeEnum.FORMAT ≠
        ParameterAttributeEnum.TYPE by decide),
      dget_dsetdefault_ne _ _ _ _ (show ParameterAttributeEnum.FORMAT ≠
        ParameterAttributeEnum.IN by decide),
      dget_dset_ne _ _ _ _ (show ParameterAttributeEnum.FORMAT ≠
        ParameterAttributeEnum.REQUIRED by decide)]

theorem fix_existing_param_eq_self (i : String) (tf : Option String × Option String)
    (p : Param)
    (hreq : dget p ParameterAttributeEnum.REQUIRED = some (Value.bool true))
    (hin : (dget p ParameterAttributeEnum.IN).isSome)
    (htype : tf.1.isSome → (dget p ParameterAttributeEnum.TYPE).isSome)
    (hfmt : tf.2.isSome → (dget p ParameterAttributeEnum.FORMAT).isSome) :
    fix_existing_param i tf p = p := by
  obtain ⟨t, f⟩ := tf
  have h1 : dset p ParameterAttributeEnum.REQUIRED (Value.bool true) = p :=
    dset_eq_self _ _ _ hreq
  cases t with
  | none =>
    cases f with
    | none =>
      simp only [fix_existing_param, h1, dsetdefault_of_isSome _ _ _ hin]
    | some fv =>
      simp only [fix_existing_param, h1, dsetdefault_of_isSome _ _ _ hin,
        dsetdefault_of_isSome _ _ _ (hfmt (by simp))]
  | some tv =>
    cases f with
    | none =>
      simp only [fix_existing_param, h1, dsetdefault_of_isSome _ _ _ hin,
        dsetdefault_of_isSome _ _ _ (htype (by simp))]
    | some fv =>
      simp only [fix_existing_param, h1, dsetdefault_of_isSome _ _ _ hin,
        dsetdefault_of_isSome _ _ _ (htype (by simp)),
        dsetdefault_of_isSome _ _ _ (hfmt (by simp))]

theorem fix_optional_one_name (rule : Rule) (verb : String) (item : Param) :
    dget (fix_optional_one rule verb item) ParameterAttributeEnum.NAME =
      dget item ParameterAttributeEnum.NAME := by
  unfold fix_optional_one
  by_cases h : name_in_args (dget item ParameterAttributeEnum.NAME) (union_args rule)
  · simp [h]
  · simp only [h, Bool.false_eq_true, if_false]
    rw [dget_dsetdefault_ne _ _ _ _ (show ParameterAttributeEnum.NAME ≠
          ParameterAttributeEnum.IN by decide),
        dget_dsetdefault_ne _ _ _ _ (show ParameterAttributeEnum.NAME ≠
          ParameterAttributeEnum.REQUIRED by decide)]

theorem fix_optional_one_of_union (rule : Rule) (verb : String) (item : Param)
    (h : name_in_args (dget item ParameterAttributeEnum.NAME) (union_args rule) = true) :
    fix_optional_one rule verb item = item := by
  unfold fix_optional_one
  simp [h]

theorem fix_optional_one_required (rule : Rule) (verb : String) (item : Param)
    (h : name_in_args (dget item ParameterAttributeEnum.NAME) (union_args rule) = false) :
    dget (fix_optional_one rule verb item) ParameterAttributeEnum.REQUIRED =
      some ((dget item ParameterAttributeEnum.REQUIRED).getD (Value.bool false)) := by
  unfold fix_optional_one
  simp only [h, Bool.false_eq_true, if_false]
  rw [dget_dsetdefault_ne _ _ _ _ (show ParameterAttributeEnum.REQUIRED ≠
        ParameterAttributeEnum.IN by decide),
      dget_dsetdefault_self]

theorem fix_optional_one_in (rule : Rule) (verb : String) (item : Param)
    (h : name_in_args (dget item ParameterAttributeEnum.NAME) (union_args rule) = false) :
    dget (fix_optional_one rule verb item) ParameterAttributeEnum.IN =
      some ((dget item ParameterAttributeEnum.IN).getD
        (Value.str (get_param_location (dget item ParameterAttributeEnum.NAME)
          rule verb))) := by
  unfold fix_optional_one
  simp only [h, Bool.false_eq_true, if_false]
  rw [dget_dsetdefault_self,
      dget_dsetdefault_ne _ _ _ _ (show ParameterAttributeEnum.IN ≠
        ParameterAttributeEnum.REQUIRED by decide)]

theorem fix_optional_one_other (rule : Rule) (verb : String) (item : Param) (k : String)
    (h1 : k ≠ ParameterAttributeEnum.REQUIRED) (h2 : k ≠ ParameterAttributeEnum.IN) :
    dget (fix_optional_one rule verb item) k = dget item k := by
  unfold fix_optional_one
  by_cases h : name_in_args (dget item ParameterAttributeEnum.NAME) (union_args rule)
  · simp [h]
  · simp only [h, Bool.false_eq_true, if_false]
    rw [dget_dsetdefault_ne _ _ _ _ h2, dget_dsetdefault_ne _ _ _ _ h1]

theorem fix_optional_one_eq_self (rule : Rule) (verb : String) (item : Param)
    (hreq : (dget item ParameterAttributeEnum.REQUIRED).isSome)
    (hin : (dget item ParameterAttributeEnum.IN).isSome) :
    fix_optional_one rule verb item = item := by
  unfold fix_optional_one
  by_cases h : name_in_args (dget item ParameterAttributeEnum.NAME) (union_args rule)
  · simp [h]
  · simp only [h, Bool.false_eq_true, if_false]
    rw [dsetdefault_of_isSome _ _ _ hreq, dsetdefault_of_isSome _ _ _ hin]

theorem fix_optional_one_required_true (rule : Rule) (verb : String) (item : Param)
    (hreq : dget item ParameterAttributeEnum.REQUIRED = some (Value.bool true)) :
    dget (fix_optional_one rule verb item) ParameterAttributeEnum.REQUIRED =
      some (Value.bool true) := by
  by_cases h : name_in_args (dget item ParameterAttributeEnum.NAME) (union_args rule)
  · rw [fix_optional_one_of_union rule verb item h, hreq]
  · rw [fix_optional_one_required rule verb item (by simp [h]), hreq]
    rfl

end FixLemmas

theorem add_or_fix_one_of_present (rule : Rule) (verb : String) (ps : List Param)
    (name : String) (h : (get_parameter name ps).isSome) :
    add_or_fix_one rule verb ps name =
      update_parameter name
        (fix_existing_param (get_param_location (some (Value.str name)) rule verb)
          (required_param_type rule name
            (get_param_location (some (Value.str name)) rule verb))) ps := by
  simp only [add_or_fix_one]
  rw [add_parameter_of_some ps name _ _ true none _ true h]

theorem add_or_fix_one_of_absent (rule : Rule) (verb : String) (ps : List Param)
    (name : String) (h : get_parameter name ps = none) :
    add_or_fix_one rule verb ps name =
      build_new_param name
        (required_param_type rule name
          (get_param_location (some (Value.str name)) rule verb)).1
        (get_param_location (some (Value.str name)) rule verb) true
        (required_param_type rule name
          (get_param_location (some (Value.str name)) rule verb)).2 none :: ps := by
  simp only [add_or_fix_one]
  rw [add_parameter_of_none_first ps name _ _ true none _ h]

/-- Claim C3: for a required argument name that already has an entry in the
fragment's parameter list, required-parameter reconciliation mutates only
that entry, in place: it forces `required = True`, fills `in`, `type` and
`format` only when those keys are currently absent (author-provided values
win), leaves every other key of the entry unchanged, and leaves the entry's
position and all other entries unchanged. -/
theorem c3_required_fix_frame (rule : Rule) (verb : String) (ps : List Param)
    (name : String) (p : Param) (in_ : String) (tf : Option String × Option String)
    (h : get_parameter name ps = some p)
    (hin : in_ = get_param_location (some (Value.str name)) rule verb)
    (htf : tf = required_param_type rule name in_) :
    ∃ l1 l2, ps = l1 ++ p :: l2 ∧
      (∀ r ∈ l1, dget r ParameterAttributeEnum.NAME ≠ some (Value.str name)) ∧
      add_or_fix_one rule verb ps name = l1 ++ fix_existing_param in_ tf p :: l2 ∧
      dget (fix_existing_param in_ tf p) ParameterAttributeEnum.REQUIRED =
        some (Value.bool true) ∧
      dget (fix_existing_param in_ tf p) ParameterAttributeEnum.IN =
        some ((dget p ParameterAttributeEnum.IN).getD (Value.str in_)) ∧
      (∀ t, tf.1 = some t →
        dget (fix_existing_param in_ tf p) ParameterAttributeEnum.TYPE =
          some ((dget p ParameterAttributeEnum.TYPE).getD (Value.str t))) ∧
      (tf.1 = none →
        dget (fix_existing_param in_ tf p) ParameterAttributeEnum.TYPE =
          dget p ParameterAttributeEnum.TYPE) ∧
      (∀ f, tf.2 = some f →
        dget (fix_existing_param in_ tf p) ParameterAttributeEnum.FORMAT =
          some ((dget p ParameterAttributeEnum.FORMAT).getD (Value.str f))) ∧
      (tf.2 = none →
        dget (fix_existing_param in_ tf p) ParameterAttributeEnum.FORMAT =
          dget p ParameterAttributeEnum.FORMAT) ∧
      (∀ k, k ≠ ParameterAttributeEnum.REQUIRED → k ≠ ParameterAttributeEnum.IN →
        k ≠ ParameterAttributeEnum.TYPE → k ≠ ParameterAttributeEnum.FORMAT →
        dget (fix_existing_param in_ tf p) k = dget p k) := by
  obtain ⟨l1, l2, heq, hl1, hp⟩ := get_parameter_decomp name ps p h
  refine ⟨l1, l2, heq, hl1, ?_, ?_, ?_, ?_, ?_, ?_, ?_, ?_⟩
  · rw [add_or_fix_one_of_present rule verb ps name (by simp [h]), ← hin, ← htf, heq]
    exact update_parameter_middle name _ l1 l2 p hl1 hp
  · exact fix_existing_param_required in_ tf p
  · exact fix_existing_param_in in_ tf p
  · intro t ht
    obtain ⟨t1, t2⟩ := tf
    cases ht
    exact fix_existing_param_type_some in_ t _ p
  · intro ht
    obtain ⟨t1, t2⟩ := tf
    cases ht
    exact fix_existing_param_type_none in_ _ p
  · intro f hf
    obtain ⟨t1, t2⟩ := tf
    cases hf
    exact fix_existing_param_format_some in_ _ f p
  · intro hf
    obtain ⟨t1, t2⟩ := tf
    cases hf
    exact fix_existing_param_format_none in_ _ p
  · intro k h1 h2 h3 h4
    exact fix_existing_param_other in_ tf p k h1 h2 h3 h4

/-- Witness for C3 at a concrete input: a fragment whose `id` entry carries
author-provided `in` and `description`; reconciliation forces only
`required`, fills `type`, and keeps everything else. -/
theorem c3_required_fix_frame_witness :
    get_parameter "id"
        [[("name", Value.str "id"), ("in", Value.str "query"),
          ("description", Value.str "the id.")]] =
      some [("name", Value.str "id"), ("in", Value.str "query"),
        ("description", Value.str "the id.")] ∧
    (∃ l1 l2,
      [[("name", Value.str "id"), ("in", Value.str "query"),
        ("description", Value.str "the id.")]] =
        l1 ++ [("name", Value.str "id"), ("in", Value.str "query"),
          ("description", Value.str "the id.")] :: l2 ∧
      (∀ r ∈ l1, dget r ParameterAttributeEnum.NAME ≠ some (Value.str "id")) ∧
      add_or_fix_one
          { arguments := ["id"], required_arguments := [],
            get_argument_type := fun _ => ArgType.int, is_paged := false,
            is_protected := false, permissions := [], status_code := none }
          "get"
          [[("name", Value.str "id"), ("in", Value.str "query"),
            ("description", Value.str "the id.")]] "id" =
        l1 ++ fix_existing_param "path" (some "integer", none)
          [("name", Value.str "id"), ("in", Value.str "query"),
            ("description", Value.str "the id.")] :: l2 ∧
      dget (fix_existing_param "path" (some "integer", none)
          [("name", Value.str "id"), ("in", Value.str "query"),
            ("description", Value.str "the id.")])
          ParameterAttributeEnum.REQUIRED = some (Value.bool true) ∧
      dget (fix_existing_param "path" (some "integer", none)
          [("name", Value.str "id"), ("in", Value.str "query"),
            ("description", Value.str "the id.")])
          ParameterAttributeEnum.IN =
        some ((dget [("name", Value.str "id"), ("in", Value.str "query"),
            ("description", Value.str "the id.")]
          ParameterAttributeEnum.IN).getD (Value.str "path")) ∧
      (∀ t, (some "integer", (none : Option String)).1 = some t →
        dget (fix_existing_param "path" (some "integer", none)
            [("name", Value.str "id"), ("in", Value.str "query"),
              ("description", Value.str "the id.")])
            ParameterAttributeEnum.TYPE =
          some ((dget [("name", Value.str "id"), ("in", Value.str "query"),
              ("description", Value.str "the id.")]
            ParameterAttributeEnum.TYPE).getD (Value.str t))) ∧
      ((some "integer", (none : Option String)).1 = none →
        dget (fix_existing_param "path" (some "integer", none)
            [("name", Value.str "id"), ("in", Value.str "query"),
              ("description", Value.str "the id.")])
            ParameterAttributeEnum.TYPE =
          dget [("name", Value.str "id"), ("in", Value.str "query"),
            ("description", Value.str "the id.")] ParameterAttributeEnum.TYPE) ∧
      (∀ f, (some "integer", (none : Option String)).2 = some f →
        dget (fix_existing_param "path" (some "integer", none)
            [("name", Value.str "id"), ("in", Value.str "query"),
              ("description", Value.str "the id.")])
            ParameterAttributeEnum.FORMAT =
          some ((dget [("name", Value.str "id"), ("in", Value.str "query"),
              ("description", Value.str "the id.")]
            ParameterAttributeEnum.FORMAT).getD (Value.str f))) ∧
      ((some "integer", (none : Option String)).2 = none →
        dget (fix_existing_param "path" (some "integer", none)
            [("name", Value.str "id"), ("in", Value.str "query"),
              ("description", Value.str "the id.")])
            ParameterAttributeEnum.FORMAT =
          dget [("name", Value.str "id"), ("in", Value.str "query"),
            ("description", Value.str "the id.")] ParameterAttributeEnum.FORMAT) ∧
      (∀ k, k ≠ ParameterAttributeEnum.REQUIRED → k ≠ ParameterAttributeEnum.IN →
        k ≠ ParameterAttributeEnum.TYPE → k ≠ ParameterAttributeEnum.FORMAT →
        dget (fix_existing_param "path" (some "integer", none)
            [("name", Value.str "id"), ("in", Value.str "query"),
              ("description", Value.str "the id.")]) k =
          dget [("name", Value.str "id"), ("in", Value.str "query"),
            ("description", Value.str "the id.")] k)) :=
  ⟨by decide,
   c3_required_fix_frame
     { arguments := ["id"], required_arguments := [],
       get_argument_type := fun _ => ArgType.int, is_paged := false,
       is_protected := false, permissions := [], status_code := none }
     "get"
     [[("name", Value.str "id"), ("in", Value.str "query"),
       ("description", Value.str "the id.")]]
     "id"
     [("name", Value.str "id"), ("in", Value.str "query"),
       ("description", Value.str "the id.")]
     "path" (some "integer", none) (by decide) (by decide) (by decide)⟩

section SectionFrames

theorem set_params_responses (s : Swag) (ps : List Param) :
    (s.set_params ps).responses = s.responses := rfl

theorem paging_responses (env : Env) (rule : Rule) (verb : String) (s : Swag) :
    (add_paging_parameters env rule verb s).responses = s.responses := by
  unfold add_paging_parameters
  cases rule.is_paged <;> simp [set_params_responses]

theorem security_responses (env : Env) (rule : Rule) (verb : String) (s : Swag) :
    (add_security_definitions env rule verb s).responses = s.responses := by
  unfold add_security_definitions
  cases rule.is_protected with
  | false => simp
  | true =>
    cases env.security_definitions with
    | none => simp
    | some defs => by_cases h : 0 < defs.length <;> simp [h]

theorem tags_responses (env : Env) (rule : Rule) (verb : String) (s : Swag) :
    (add_tags env rule verb s).responses = s.responses := by
  unfold add_tags
  by_cases h : 0 < (env.get_tags rule verb.toUpper).length <;> simp [h]

theorem auth_responses (rule : Rule) (verb : String) (s : Swag) :
    (add_authentication_failed_response rule verb s).responses_of =
      if rule.is_protected then
        dsetdefault s.responses_of ClientErrorResponseCodeEnum.UNAUTHORIZED
          authentication_failed_dict
      else s.responses_of := by
  unfold add_authentication_failed_response
  cases rule.is_protected <;> simp [Swag.responses_of]

theorem perm_responses (rule : Rule) (verb : String) (s : Swag) :
    (add_permission_denied_response rule verb s).responses_of =
      if rule.is_protected ∧ 0 < rule.permissions.length then
        dsetdefault s.responses_of ClientErrorResponseCodeEnum.FORBIDDEN
          permission_denied_dict
      else s.responses_of := by
  unfold add_permission_denied_response
  by_cases h : rule.is_protected = true ∧ 0 < rule.permissions.length <;>
    simp [h, Swag.responses_of]

theorem success_responses (env : Env) (rule : Rule) (verb : String) (s : Swag) :
    (add_successful_response env rule verb s).responses_of =
      dsetdefault s.responses_of (resolved_status_code env rule verb) successful_dict := by
  unfold add_successful_response
  simp [Swag.responses_of]

theorem auth_parameters (rule : Rule) (verb : String) (s : Swag) :
    (add_authentication_failed_response rule verb s).parameters = s.parameters := by
  unfold add_authentication_failed_response
  cases rule.is_protected <;> simp

theorem perm_parameters (rule : Rule) (verb : String) (s : Swag) :
    (add_permission_denied_response rule verb s).parameters = s.parameters := by
  unfold add_permission_denied_response
  by_cases h : rule.is_protected = true ∧ 0 < rule.permissions.length <;> simp [h]

theorem success_parameters (env : Env) (rule : Rule) (verb : String) (s : Swag) :
    (add_successful_response env rule verb s).parameters = s.parameters := by
  unfold add_successful_response
  simp

theorem security_parameters (env : Env) (rule : Rule) (verb : String) (s : Swag) :
    (add_security_definitions env rule verb s).parameters = s.parameters := by
  unfold add_security_definitions
  cases rule.is_protected with
  | false => simp
  | true =>
    cases env.security_definitions with
    | none => simp
    | some defs => by_cases h : 0 < defs.length <;> simp [h]

theorem tags_parameters (env : Env) (rule : Rule) (verb : String) (s : Swag) :
    (add_tags env rule verb s).parameters = s.parameters := by
  unfold add_tags
  by_cases h : 0 < (env.get_tags rule verb.toUpper).length <;> simp [h]

theorem responses_of_congr {s t : Swag} (h : s.responses = t.responses) :
    s.responses_of = t.responses_of := by
  unfold Swag.responses_of
  rw [h]

theorem params_steps_responses (env : Env) (rule : Rule) (verb : String) (swag : Swag) :
    (add_timezone_parameter env rule verb (add_locale_parameter env rule verb
      (add_paging_parameters env rule verb (fix_optional_parameters rule verb
        (add_or_fix_required_parameters rule verb swag))))).responses =
      swag.responses := by
  unfold add_timezone_parameter add_locale_parameter
  rw [set_params_responses, set_params_responses, paging_responses]
  rfl

/-- The `responses` section of the fixed fragment, as a closed form: the
401, 403 and success entries are attempted in that order, each with
`setdefault` semantics. -/
theorem fix_metadata_responses (env : Env) (rule : Rule) (verb : String) (swag : Swag) :
    (fix_metadata env rule verb swag).responses_of =
      dsetdefault
        (if rule.is_protected ∧ 0 < rule.permissions.length then
          dsetdefault
            (if rule.is_protected then
              dsetdefault swag.responses_of ClientErrorResponseCodeEnum.UNAUTHORIZED
                authentication_failed_dict
            else swag.responses_of)
            ClientErrorResponseCodeEnum.FORBIDDEN permission_denied_dict
         else
          (if rule.is_protected then
            dsetdefault swag.responses_of ClientErrorResponseCodeEnum.UNAUTHORIZED
              authentication_failed_dict
          else swag.responses_of))
        (resolved_status_code env rule verb) successful_dict := by
  simp only [fix_metadata]
  rw [responses_of_congr (tags_responses env rule verb _), success_responses,
    perm_responses, auth_responses,
    responses_of_congr (security_responses env rule verb _),
    responses_of_congr (params_steps_responses env rule verb swag)]

/-- The `parameters` section of the fixed fragment is exactly the parameter
pipeline applied to the incoming `parameters` section. -/
theorem fix_metadata_parameters (env : Env) (rule : Rule) (verb : String) (swag : Swag) :
    (fix_metadata env rule verb swag).parameters =
      some (params_pipeline env rule verb swag.params_of) := by
  simp only [fix_metadata, params_pipeline, tags_parameters, success_parameters,
    perm_parameters, auth_parameters, security_parameters]
  cases hp : rule.is_paged <;>
    simp [add_timezone_parameter, add_locale_parameter, add_paging_parameters,
      fix_optional_parameters, add_or_fix_required_parameters, Swag.set_params,
      Swag.params_of, hp]

end SectionFrames

theorem get_parameter_add_or_fix_ne (rule : Rule) (verb : String) (ps : List Param)
    (n name : String) (hne : n ≠ name) :
    get_parameter name (add_or_fix_one rule verb ps n) = get_parameter name ps := by
  cases hg : get_parameter n ps with
  | none =>
    rw [add_or_fix_one_of_absent rule verb ps n hg]
    simp only [get_parameter, build_new_param_name]
    rw [if_neg (by simp [hne])]
  | some p =>
    rw [add_or_fix_one_of_present rule verb ps n (by simp [hg])]
    exact get_parameter_update_ne n name _ ps (Ne.symm hne)
      (fun q => fix_existing_param_name _ _ q)

theorem get_parameter_fold_ne (rule : Rule) (verb : String) (names : List String)
    (name : String) (hne : ∀ n ∈ names, n ≠ name) (ps : List Param) :
    get_parameter name (names.foldl (add_or_fix_one rule verb) ps) =
      get_parameter name ps := by
  induction names generalizing ps with
  | nil => rfl
  | cons m rest ih =>
    rw [List.foldl_cons, ih (fun n hn => hne n (by simp [hn])),
      get_parameter_add_or_fix_ne rule verb ps m name (hne m (by simp))]

/-- Counterexample to claim C5 as stated: a protected route with a
permission whose fragment already carries an author-supplied 401 response
with an empty description.  The 401 entry of the fixed fragment is exactly
the author's (setdefault never overwrites it), so its description is the
empty string and the claimed "both with non-empty descriptions" fails. -/
theorem c5_responses_counterexample :
    rule_protected_perms.is_protected = true ∧
    0 < rule_protected_perms.permissions.length ∧
    dget (fix_metadata sample_env rule_protected_perms "get"
        swag_empty_desc_401).responses_of ClientErrorResponseCodeEnum.UNAUTHORIZED =
      some [("description", Value.str "")] ∧
    ¬(∃ s, dget [("description", Value.str "")] ParameterAttributeEnum.DESCRIPTION =
      some (Value.str s) ∧ s ≠ "") := by
  refine ⟨rfl, by decide, by decide, ?_⟩
  rintro ⟨s, hs, hne⟩
  simp [dget, ParameterAttributeEnum.DESCRIPTION] at hs
  exact hne hs.symm

/-- Claim C5 (amended): for every protected route, the fixed fragment's
responses contain a 401 entry — the author-supplied one when the fragment
already had a 401 (never overwritten, so its description may be empty),
otherwise the synthesized one, whose description is non-empty; with a
non-empty permissions sequence they likewise contain a 403 entry (author's
when present, otherwise the synthesized permission-denied one, whose
description is non-empty); with an empty permissions sequence no 403 entry
is synthesized (none is present at all when the fragment had none and the
resolved success status is not 403); and an author-supplied response
already present under any status code is never overwritten. -/
theorem c5_protected_responses_amended (env : Env) (rule : Rule) (verb : String)
    (swag : Swag) (hprot : rule.is_protected = true) :
    dget (fix_metadata env rule verb swag).responses_of
        ClientErrorResponseCodeEnum.UNAUTHORIZED =
      some ((dget swag.responses_of ClientErrorResponseCodeEnum.UNAUTHORIZED).getD
        authentication_failed_dict) ∧
    (0 < rule.permissions.length →
      dget (fix_metadata env rule verb swag).responses_of
          ClientErrorResponseCodeEnum.FORBIDDEN =
        some ((dget swag.responses_of ClientErrorResponseCodeEnum.FORBIDDEN).getD
          permission_denied_dict)) ∧
    (∃ s, dget authentication_failed_dict ParameterAttributeEnum.DESCRIPTION =
      some (Value.str s) ∧ s ≠ "") ∧
    (∃ s, dget permission_denied_dict ParameterAttributeEnum.DESCRIPTION =
      some (Value.str s) ∧ s ≠ "") ∧
    (rule.permissions.length = 0 →
      dget swag.responses_of ClientErrorResponseCodeEnum.FORBIDDEN = none →
      resolved_status_code env rule verb ≠ ClientErrorResponseCodeEnum.FORBIDDEN →
      dget (fix_metadata env rule verb swag).responses_of
        ClientErrorResponseCodeEnum.FORBIDDEN = none) ∧
    (∀ code resp, dget swag.responses_of code = some resp →
      dget (fix_metadata env rule verb swag).responses_of code = some resp) := by
  rw [show (fix_metadata env rule verb swag).responses_of = _ from
    fix_metadata_responses env rule verb swag]
  rw [if_pos hprot]
  have h401 :
      dget (dsetdefault swag.responses_of ClientErrorResponseCodeEnum.UNAUTHORIZED
        authentication_failed_dict) ClientErrorResponseCodeEnum.UNAUTHORIZED =
      some ((dget swag.responses_of ClientErrorResponseCodeEnum.UNAUTHORIZED).getD
        authentication_failed_dict) :=
    dget_dsetdefault_self _ _ _
  refine ⟨?_, ?_, ⟨"user has not been authenticated.", by decide, by decide⟩,
    ⟨"you do not have the required permissions to access this resource.",
      by decide, by decide⟩, ?_, ?_⟩
  · by_cases hperm : rule.is_protected = true ∧ 0 < rule.permissions.length
    · rw [if_pos hperm]
      exact dget_dsetdefault_of_some _ _ _ _ _
        (dget_dsetdefault_of_some _ _ _ _ _ h401)
    · rw [if_neg hperm]
      exact dget_dsetdefault_of_some _ _ _ _ _ h401
  · intro hperm
    rw [if_pos ⟨hprot, hperm⟩]
    refine dget_dsetdefault_of_some _ _ _ _ _ ?_
    rw [dget_dsetdefault_self,
      dget_dsetdefault_ne _ _ _ _ (show ClientErrorResponseCodeEnum.FORBIDDEN ≠
        ClientErrorResponseCodeEnum.UNAUTHORIZED by decide)]
  · intro hperm h403 hcode
    rw [if_neg (by simp [hperm]),
      dget_dsetdefault_ne _ _ _ _ (Ne.symm hcode),
      dget_dsetdefault_ne _ _ _ _ (show ClientErrorResponseCodeEnum.FORBIDDEN ≠
        ClientErrorResponseCodeEnum.UNAUTHORIZED by decide)]
    exact h403
  · intro code resp hresp
    have step1 := dget_dsetdefault_of_some swag.responses_of
      ClientErrorResponseCodeEnum.UNAUTHORIZED code authentication_failed_dict
      resp hresp
    by_cases hperm : rule.is_protected = true ∧ 0 < rule.permissions.length
    · rw [if_pos hperm]
      exact dget_dsetdefault_of_some _ _ _ _ _
        (dget_dsetdefault_of_some _ _ _ _ _ step1)
    · rw [if_neg hperm]
      exact dget_dsetdefault_of_some _ _ _ _ _ step1

/-- Witness for the amended claim C5 at concrete inputs: a protected route
with one permission and an empty fragment (both response entries are
synthesized, with their non-empty descriptions). -/
theorem c5_protected_responses_amended_witness :
    rule_protected_perms.is_protected = true ∧
    (dget (fix_metadata sample_env rule_protected_perms "get"
          swag_empty).responses_of ClientErrorResponseCodeEnum.UNAUTHORIZED =
      some ((dget swag_empty.responses_of
        ClientErrorResponseCodeEnum.UNAUTHORIZED).getD authentication_failed_dict) ∧
    (0 < rule_protected_perms.permissions.length →
      dget (fix_metadata sample_env rule_protected_perms "get"
          swag_empty).responses_of ClientErrorResponseCodeEnum.FORBIDDEN =
        some ((dget swag_empty.responses_of
          ClientErrorResponseCodeEnum.FORBIDDEN).getD permission_denied_dict)) ∧
    (∃ s, dget authentication_failed_dict ParameterAttributeEnum.DESCRIPTION =
      some (Value.str s) ∧ s ≠ "") ∧
    (∃ s, dget permission_denied_dict ParameterAttributeEnum.DESCRIPTION =
      some (Value.str s) ∧ s ≠ "") ∧
    (rule_protected_perms.permissions.length = 0 →
      dget swag_empty.responses_of ClientErrorResponseCodeEnum.FORBIDDEN = none →
      resolved_status_code sample_env rule_protected_perms "get" ≠
        ClientErrorResponseCodeEnum.FORBIDDEN →
      dget (fix_metadata sample_env rule_protected_perms "get"
        swag_empty).responses_of ClientErrorResponseCodeEnum.FORBIDDEN = none) ∧
    (∀ code resp, dget swag_empty.responses_of code = some resp →
      dget (fix_metadata sample_env rule_protected_perms "get"
        swag_empty).responses_of code = some resp)) :=
  ⟨rfl, c5_protected_responses_amended sample_env rule_protected_perms "get"
    swag_empty rfl⟩

/-- Claim C4: for a paged route, every documented verb gains two additional
optional integer query parameters named by the configured page and
page-size field names, regardless of the other parameters the raw fragment
already declared (the configured names themselves being fresh: distinct
from each other, from the fragment's parameter names and from the route's
argument names). -/
theorem c4_paging_parameters (env : Env) (rule : Rule) (verb : String) (swag : Swag)
    (hpaged : rule.is_paged = true)
    (habs1 : get_parameter env.page_param_name swag.params_of = none)
    (habs2 : get_parameter env.page_size_param_name swag.params_of = none)
    (hne : env.page_param_name ≠ env.page_size_param_name)
    (hu1 : env.page_param_name ∉ union_args rule)
    (hu2 : env.page_size_param_name ∉ union_args rule) :
    (∃ p, get_parameter env.page_param_name
        (fix_metadata env rule verb swag).params_of = some p ∧
      dget p ParameterAttributeEnum.REQUIRED = some (Value.bool false) ∧
      dget p ParameterAttributeEnum.IN = some (Value.str ParameterLocationEnum.QUERY) ∧
      dget p ParameterAttributeEnum.TYPE =
        some (Value.str ParameterTypeEnum.INTEGER)) ∧
    (∃ p, get_parameter env.page_size_param_name
        (fix_metadata env rule verb swag).params_of = some p ∧
      dget p ParameterAttributeEnum.REQUIRED = some (Value.bool false) ∧
      dget p ParameterAttributeEnum.IN = some (Value.str ParameterLocationEnum.QUERY) ∧
      dget p ParameterAttributeEnum.TYPE =
        some (Value.str ParameterTypeEnum.INTEGER)) := by
  have hparams : (fix_metadata env rule verb swag).params_of =
      params_pipeline env rule verb swag.params_of := by
    unfold Swag.params_of
    rw [fix_metadata_parameters]
    rfl
  rw [hparams]
  unfold params_pipeline
  rw [hpaged]
  simp only [if_true]
  set ps1 := (union_args rule).foldl (add_or_fix_one rule verb) swag.params_of with hps1
  set ps2 := ps1.map (fix_optional_one rule verb) with hps2
  have habs1' : get_parameter env.page_param_name ps2 = none := by
    rw [hps2, get_parameter_map _ _ _ (fun q => fix_optional_one_name rule verb q),
      hps1, get_parameter_fold_ne rule verb _ _
        (fun n hn h => hu1 (by rw [← h]; exact hn)) _, habs1]
    rfl
  have habs2' : get_parameter env.page_size_param_name ps2 = none := by
    rw [hps2, get_parameter_map _ _ _ (fun q => fix_optional_one_name rule verb q),
      hps1, get_parameter_fold_ne rule verb _ _
        (fun n hn h => hu2 (by rw [← h]; exact hn)) _, habs2]
    rfl
  set bnp1 := build_new_param env.page_param_name (some ParameterTypeEnum.INTEGER)
    ParameterLocationEnum.QUERY false none (some "page number to be get.") with hbnp1
  set bnp2 := build_new_param env.page_size_param_name (some ParameterTypeEnum.INTEGER)
    ParameterLocationEnum.QUERY false none (some "page size to be get.") with hbnp2
  set ps3a := (add_parameter ps2 env.page_param_name (some ParameterTypeEnum.INTEGER)
    ParameterLocationEnum.QUERY false (some "page number to be get.") none false).2
    with hps3a
  have hget1 : get_parameter env.page_param_name ps3a = some bnp1 := by
    rw [hps3a]
    exact get_parameter_add_self_of_none _ _ _ _ _ _ _ _ habs1'
  have habs2'' : get_parameter env.page_size_param_name ps3a = none := by
    rw [hps3a, get_parameter_add_ne _ _ _ _ _ _ _ _ _ hne, habs2']
  set ps3 := (add_parameter ps3a env.page_size_param_name
    (some ParameterTypeEnum.INTEGER) ParameterLocationEnum.QUERY false
    (some "page size to be get.") none false).2 with hps3
  have hget2 : get_parameter env.page_size_param_name ps3 = some bnp2 := by
    rw [hps3]
    exact get_parameter_add_self_of_none _ _ _ _ _ _ _ _ habs2''
  have hget1' : get_parameter env.page_param_name ps3 = some bnp1 := by
    rw [hps3]
    exact get_parameter_add_of_some _ _ _ _ _ _ _ _ _ _ hget1
  constructor
  · refine ⟨bnp1, ?_, ?_, ?_, ?_⟩
    · exact get_parameter_add_of_some _ _ _ _ _ _ _ _ _ _
        (get_parameter_add_of_some _ _ _ _ _ _ _ _ _ _ hget1')
    · rw [hbnp1, build_new_param_required]
    · rw [hbnp1, build_new_param_in]
    · rw [hbnp1, build_new_param_type]
      rfl
  · refine ⟨bnp2, ?_, ?_, ?_, ?_⟩
    · exact get_parameter_add_of_some _ _ _ _ _ _ _ _ _ _
        (get_parameter_add_of_some _ _ _ _ _ _ _ _ _ _ hget2)
    · rw [hbnp2, build_new_param_required]
    · rw [hbnp2, build_new_param_in]
    · rw [hbnp2, build_new_param_type]
      rfl

/-- Witness for C4 at a concrete input: a paged route and a fragment with an
unrelated parameter gain the `page` and `page_size` query parameters. -/
theorem c4_paging_parameters_witness :
    rule_paged.is_paged = true ∧
    get_parameter sample_env.page_param_name swag_filter.params_of = none ∧
    get_parameter sample_env.page_size_param_name swag_filter.params_of = none ∧
    sample_env.page_param_name ≠ sample_env.page_size_param_name ∧
    sample_env.page_param_name ∉ union_args rule_paged ∧
    sample_env.page_size_param_name ∉ union_args rule_paged ∧
    ((∃ p, get_parameter sample_env.page_param_name
        (fix_metadata sample_env rule_paged "get" swag_filter).params_of = some p ∧
      dget p ParameterAttributeEnum.REQUIRED = some (Value.bool false) ∧
      dget p ParameterAttributeEnum.IN = some (Value.str ParameterLocationEnum.QUERY) ∧
      dget p ParameterAttributeEnum.TYPE =
        some (Value.str ParameterTypeEnum.INTEGER)) ∧
    (∃ p, get_parameter sample_env.page_size_param_name
        (fix_metadata sample_env rule_paged "get" swag_filter).params_of = some p ∧
      dget p ParameterAttributeEnum.REQUIRED = some (Value.bool false) ∧
      dget p ParameterAttributeEnum.IN = some (Value.str ParameterLocationEnum.QUERY) ∧
      dget p ParameterAttributeEnum.TYPE =
        some (Value.str ParameterTypeEnum.INTEGER))) :=
  ⟨rfl, rfl, rfl, by decide, by decide, by decide,
   c4_paging_parameters sample_env rule_paged "get" swag_filter
     rfl rfl rfl (by decide) (by decide) (by decide)⟩

/-- Claim C6: the resolved parameter location is `path` when the name is a
path argument of the route, `query` when it is not and the verb is
(case-insensitively) GET, HEAD or OPTIONS, and `json` otherwise; and
optional-parameter fixing maps every entry of the fragment through
`fix_optional_one`, which, for an entry whose name is not in the union of
required and path arguments, sets `required` to false only if it is unset
and sets `in` to the resolved location only if it is unset. -/
theorem c6_location_and_optional_fix (rule : Rule) (verb : String) (name : String)
    (swag : Swag) (item : Param)
    (hnot : name_in_args (dget item ParameterAttributeEnum.NAME) (union_args rule) = false) :
    (name ∈ rule.arguments →
      get_param_location (some (Value.str name)) rule verb = ParameterLocationEnum.PATH) ∧
    (name ∉ rule.arguments →
      (verb.toUpper = HTTPMethodEnum.GET ∨ verb.toUpper = HTTPMethodEnum.HEAD ∨
        verb.toUpper = HTTPMethodEnum.OPTIONS) →
      get_param_location (some (Value.str name)) rule verb = ParameterLocationEnum.QUERY) ∧
    (name ∉ rule.arguments →
      ¬(verb.toUpper = HTTPMethodEnum.GET ∨ verb.toUpper = HTTPMethodEnum.HEAD ∨
        verb.toUpper = HTTPMethodEnum.OPTIONS) →
      get_param_location (some (Value.str name)) rule verb = ParameterLocationEnum.JSON) ∧
    (fix_optional_parameters rule verb swag).parameters =
      some (swag.params_of.map (fix_optional_one rule verb)) ∧
    dget (fix_optional_one rule verb item) ParameterAttributeEnum.REQUIRED =
      some ((dget item ParameterAttributeEnum.REQUIRED).getD (Value.bool false)) ∧
    dget (fix_optional_one rule verb item) ParameterAttributeEnum.IN =
      some ((dget item ParameterAttributeEnum.IN).getD
        (Value.str (get_param_location (dget item ParameterAttributeEnum.NAME)
          rule verb))) := by
  refine ⟨?_, ?_, ?_, rfl, fix_optional_one_required rule verb item hnot,
    fix_optional_one_in rule verb item hnot⟩
  · intro hmem
    unfold get_param_location name_in_args
    simp [hmem]
  · intro hmem hverb
    unfold get_param_location name_in_args
    rw [if_neg (by simp [hmem]), if_pos (by tauto)]
  · intro hmem hverb
    unfold get_param_location name_in_args
    have h1 : verb.toUpper ≠ HTTPMethodEnum.HEAD := fun hc => hverb (Or.inr (Or.inl hc))
    have h2 : verb.toUpper ≠ HTTPMethodEnum.GET := fun hc => hverb (Or.inl hc)
    have h3 : verb.toUpper ≠ HTTPMethodEnum.OPTIONS := fun hc => hverb (Or.inr (Or.inr hc))
    simp [hmem, h1, h2, h3]

/-- Witness for C6 at a concrete input: route with path argument `id`, verb
`post`, and a fragment entry named `filter` lacking `required` and `in`. -/
theorem c6_location_and_optional_fix_witness :
    name_in_args (dget [("name", Value.str "filter")] ParameterAttributeEnum.NAME)
        (union_args rule_id_int) = false ∧
    (("id" ∈ rule_id_int.arguments →
      get_param_location (some (Value.str "id")) rule_id_int "post" =
        ParameterLocationEnum.PATH) ∧
    ("id" ∉ rule_id_int.arguments →
      ("post".toUpper = HTTPMethodEnum.GET ∨ "post".toUpper = HTTPMethodEnum.HEAD ∨
        "post".toUpper = HTTPMethodEnum.OPTIONS) →
      get_param_location (some (Value.str "id")) rule_id_int "post" =
        ParameterLocationEnum.QUERY) ∧
    ("id" ∉ rule_id_int.arguments →
      ¬("post".toUpper = HTTPMethodEnum.GET ∨ "post".toUpper = HTTPMethodEnum.HEAD ∨
        "post".toUpper = HTTPMethodEnum.OPTIONS) →
      get_param_location (some (Value.str "id")) rule_id_int "post" =
        ParameterLocationEnum.JSON) ∧
    (fix_optional_parameters rule_id_int "post" swag_filter).parameters =
      some (swag_filter.params_of.map (fix_optional_one rule_id_int "post")) ∧
    dget (fix_optional_one rule_id_int "post" [("name", Value.str "filter")])
        ParameterAttributeEnum.REQUIRED =
      some ((dget [("name", Value.str "filter")]
        ParameterAttributeEnum.REQUIRED).getD (Value.bool false)) ∧
    dget (fix_optional_one rule_id_int "post" [("name", Value.str "filter")])
        ParameterAttributeEnum.IN =
      some ((dget [("name", Value.str "filter")] ParameterAttributeEnum.IN).getD
        (Value.str (get_param_location
          (dget [("name", Value.str "filter")] ParameterAttributeEnum.NAME)
          rule_id_int "post")))) :=
  ⟨by decide,
   c6_location_and_optional_fix rule_id_int "post" "id" swag_filter
     [("name", Value.str "filter")] (by decide)⟩

/-- Claim C7: the path pattern `/users/<int:id>/posts/<slug>` normalizes to
`/users/{id}/posts/{slug}` (converter prefixes dropped, placeholders
rewritten to brace form), and with reverse-proxy prefix `/api`, base path
`/api` and pattern `/users/<id>` the final path key is `/users/{id}` — the
prefix is added and then stripped because it equals the base path. -/
theorem c7_path_key_normalization :
    get_path_key none none "/users/<int:id>/posts/<slug>" = "/users/{id}/posts/{slug}" ∧
    get_path_key (some "/api") (some "/api") "/users/<id>" = "/users/{id}" := by
  constructor <;> decide

/-- Claim C9: in the verb-resolution loop of `get_specs`, a verb whose view
function cannot be located makes the whole assembly fail with the error
message naming the offending rule, unless the endpoint is a valid method
view, in which case exactly the unlocatable verbs are silently skipped and
assembly continues. -/
theorem c9_missing_view_func (rule_str : String) (methods : List (String × MethodInfo))
    (verb : String) (mi : MethodInfo) :
    ((verb, mi) ∈ methods → locate_view_func false mi verb = none →
      get_specs_verbs rule_str false methods =
        Except.error ("Cannot detect view_func for rule " ++ rule_str)) ∧
    get_specs_verbs rule_str true methods =
      Except.ok (methods.filterMap
        (fun vm => (locate_view_func true vm.2 vm.1).map (fun h => (vm.1, h)))) := by
  constructor
  · intro hmem hnone
    induction methods with
    | nil => simp at hmem
    | cons vm rest ih =>
      obtain ⟨v0, mi0⟩ := vm
      rcases List.mem_cons.mp hmem with heq | hmem2
      · obtain ⟨hv, hm⟩ := Prod.mk.injEq .. ▸ heq
        unfold get_specs_verbs
        rw [show locate_view_func false mi0 v0 = none from by rw [← hv, ← hm]; exact hnone]
        simp
      · unfold get_specs_verbs
        cases hl : locate_view_func false mi0 v0 with
        | some h => rw [ih hmem2]; rfl
        | none => simp
  · induction methods with
    | nil => rfl
    | cons vm rest ih =>
      obtain ⟨v0, mi0⟩ := vm
      unfold get_specs_verbs
      cases hl : locate_view_func true mi0 v0 with
      | some h => rw [ih]; simp [hl]; rfl
      | none => rw [ih]; simp [hl]

/-- Witness for C9 at a concrete input: a single `get` verb whose method
cannot be located (no stored callable and no view class); with `is_mv`
false the loop fails naming the rule. -/
theorem c9_missing_view_func_witness :
    ("get", ({ initial := none, view_class := none } : MethodInfo)) ∈
      [("get", ({ initial := none, view_class := none } : MethodInfo))] ∧
    locate_view_func false { initial := none, view_class := none } "get" = none ∧
    get_specs_verbs "/users/<id>" false
        [("get", ({ initial := none, view_class := none } : MethodInfo))] =
      Except.error ("Cannot detect view_func for rule " ++ "/users/<id>") :=
  ⟨List.mem_singleton.mpr rfl, rfl,
   (c9_missing_view_func "/users/<id>"
      [("get", ({ initial := none, view_class := none } : MethodInfo))]
      "get" { initial := none, view_class := none }).1
     (List.mem_singleton.mpr rfl) rfl⟩

/-- Claim C8: when the application is not in debug mode, a second call to
`get_apispecs` with the same endpoint returns the document cached by the
first call, unchanged and without re-assembling; in debug mode every call
with a configured endpoint re-runs the full assembly, so a second call
under an edited environment returns that environment's freshly assembled
document. -/
theorem c8_memoization (env env2 : BuildEnv) (st st2 : List (String × ApiDoc))
    (endpoint : String) (d : ApiDoc) :
    (env.debug = false → get_apispecs env st endpoint = Except.ok (d, st2) →
      get_apispecs env st2 endpoint = Except.ok (d, st2)) ∧
    (env.debug = true → endpoint ∈ env.spec_endpoints →
      get_apispecs env st endpoint =
        Except.ok (env.assemble endpoint, dset st endpoint (env.assemble endpoint))) ∧
    (env2.debug = true → endpoint ∈ env2.spec_endpoints →
      get_apispecs env2 st2 endpoint =
        Except.ok (env2.assemble endpoint, dset st2 endpoint (env2.assemble endpoint))) := by
  refine ⟨?_, ?_, ?_⟩
  · intro hdebug h1
    unfold get_apispecs at h1 ⊢
    rw [hdebug] at h1 ⊢
    simp only [Bool.false_eq_true, if_false] at h1 ⊢
    cases hc : dget st endpoint with
    | some cached =>
      rw [hc] at h1
      simp at h1
      obtain ⟨hd, hst⟩ := h1
      subst hd
      subst hst
      rw [hc]
    | none =>
      rw [hc] at h1
      simp only at h1
      by_cases hmem : endpoint ∈ env.spec_endpoints
      · rw [if_pos hmem] at h1
        simp at h1
        obtain ⟨hd, hst⟩ := h1
        subst hd
        subst hst
        rw [dget_dset_self]
      · rw [if_neg hmem] at h1
        simp at h1
  · intro hdebug hmem
    unfold get_apispecs
    rw [hdebug]
    simp [hmem]
  · intro hdebug hmem
    unfold get_apispecs
    rw [hdebug]
    simp [hmem]

/-- Witness for C8 at concrete inputs: a non-debug first call populates the
cache and the second call returns the same document and state; a debug
environment re-assembles. -/
theorem c8_memoization_witness :
    (({ debug := false, spec_endpoints := ["swagger"], assemble := fun _ => 7 } :
        BuildEnv).debug = false ∧
      get_apispecs { debug := false, spec_endpoints := ["swagger"], assemble := fun _ => 7 }
        [] "swagger" = Except.ok (7, dset [] "swagger" 7) ∧
      get_apispecs { debug := false, spec_endpoints := ["swagger"], assemble := fun _ => 7 }
        (dset [] "swagger" 7) "swagger" = Except.ok (7, dset [] "swagger" 7)) ∧
    (({ debug := true, spec_endpoints := ["swagger"], assemble := fun _ => 9 } :
        BuildEnv).debug = true ∧
      get_apispecs { debug := true, spec_endpoints := ["swagger"], assemble := fun _ => 9 }
        (dset [] "swagger" 7) "swagger" =
        Except.ok (9, dset (dset [] "swagger" 7) "swagger" 9)) :=
  ⟨⟨rfl, rfl,
    (c8_memoization
      { debug := false, spec_endpoints := ["swagger"], assemble := fun _ => 7 }
      { debug := false, spec_endpoints := ["swagger"], assemble := fun _ => 7 }
      [] (dset [] "swagger" 7) "swagger" 7).1 rfl rfl⟩,
   ⟨rfl,
    ((c8_memoization
      { debug := true, spec_endpoints := ["swagger"], assemble := fun _ => 9 }
      { debug := true, spec_endpoints := ["swagger"], assemble := fun _ => 9 }
      (dset [] "swagger" 7) (dset [] "swagger" 7) "swagger" 9).2).1 rfl (by decide)⟩⟩

/-- Claim C10: every completing `get_apispecs` call leaves the cache holding
the returned document under the endpoint, and every call that actually
assembles (debug mode, or a cache miss) stores the freshly assembled
document before returning — debug mode bypasses only the cache read, never
the cache write. -/
theorem c10_cache_write (env : BuildEnv) (st st2 : List (String × ApiDoc))
    (endpoint : String) (d : ApiDoc)
    (h : get_apispecs env st endpoint = Except.ok (d, st2)) :
    dget st2 endpoint = some d ∧
    (env.debug = true ∨ dget st endpoint = none →
      d = env.assemble endpoint ∧ st2 = dset st endpoint d) := by
  unfold get_apispecs at h
  cases hdebug : env.debug with
  | true =>
    rw [hdebug] at h
    simp only [if_true] at h
    by_cases hmem : endpoint ∈ env.spec_endpoints
    · rw [if_pos hmem] at h
      simp at h
      obtain ⟨hd, hst⟩ := h
      subst hd
      subst hst
      exact ⟨dget_dset_self _ _ _, fun _ => ⟨rfl, rfl⟩⟩
    · rw [if_neg hmem] at h
      simp at h
  | false =>
    rw [hdebug] at h
    simp only [Bool.false_eq_true, if_false] at h
    cases hc : dget st endpoint with
    | some cached =>
      rw [hc] at h
      simp at h
      obtain ⟨hd, hst⟩ := h
      subst hd
      subst hst
      refine ⟨hc, fun hcase => ?_⟩
      rcases hcase with hcase | hcase
      · simp at hcase
      · exact Option.noConfusion hcase
    | none =>
      rw [hc] at h
      simp only at h
      by_cases hmem : endpoint ∈ env.spec_endpoints
      · rw [if_pos hmem] at h
        simp at h
        obtain ⟨hd, hst⟩ := h
        subst hd
        subst hst
        exact ⟨dget_dset_self _ _ _, fun _ => ⟨rfl, rfl⟩⟩
      · rw [if_neg hmem] at h
        simp at h

/-- Witness for C10 at a concrete input: a debug-mode call stores the
assembled document in the cache before returning it. -/
theorem c10_cache_write_witness :
    get_apispecs { debug := true, spec_endpoints := ["swagger"], assemble := fun _ => 5 }
        [("swagger", 3)] "swagger" = Except.ok (5, dset [("swagger", 3)] "swagger" 5) ∧
    dget (dset [("swagger", 3)] "swagger" 5) "swagger" = some 5 ∧
    (({ debug := true, spec_endpoints := ["swagger"], assemble := fun _ => 5 } :
        BuildEnv).debug = true ∨ dget [("swagger", 3)] "swagger" = none →
      5 = ({ debug := true, spec_endpoints := ["swagger"], assemble := fun _ => 5 } :
        BuildEnv).assemble "swagger" ∧
      dset [("swagger", 3)] "swagger" 5 = dset [("swagger", 3)] "swagger" 5) :=
  ⟨rfl,
   c10_cache_write { debug := true, spec_endpoints := ["swagger"], assemble := fun _ => 5 }
     [("swagger", 3)] (dset [("swagger", 3)] "swagger" 5) "swagger" 5 rfl⟩

section Idempotence

theorem get_parameter_name_eq (n : String) (ps : List Param) (p : Param)
    (h : get_parameter n ps = some p) :
    dget p ParameterAttributeEnum.NAME = some (Value.str n) := by
  obtain ⟨l1, l2, heq, hl1, hp⟩ := get_parameter_decomp n ps p h
  exact hp

theorem add_or_fix_one_eq_self (rule : Rule) (verb : String) (n : String)
    (ps : List Param) (h : first_fixed rule verb n ps) :
    add_or_fix_one rule verb ps n = ps := by
  obtain ⟨p, hget, h1, h2, h3, h4⟩ := h
  rw [add_or_fix_one_of_present rule verb ps n (by simp [hget])]
  exact update_parameter_eq_self n _ ps p hget
    (fix_existing_param_eq_self _ _ p h1 h2 h3 h4)

theorem fold_eq_self (rule : Rule) (verb : String) (names : List String)
    (ps : List Param) (h : ∀ n ∈ names, first_fixed rule verb n ps) :
    names.foldl (add_or_fix_one rule verb) ps = ps := by
  induction names with
  | nil => rfl
  | cons m rest ih =>
    rw [List.foldl_cons, add_or_fix_one_eq_self rule verb m ps (h m (by simp)),
      ih (fun n hn => h n (by simp [hn]))]

theorem fix_optional_one_opt_fixed (rule : Rule) (verb : String) (p : Param)
    (h : opt_fixed rule p) : fix_optional_one rule verb p = p := by
  rcases h with h | ⟨h1, h2⟩
  · exact fix_optional_one_of_union rule verb p h
  · exact fix_optional_one_eq_self rule verb p h1 h2

theorem map_fix_optional_eq_self (rule : Rule) (verb : String) (ps : List Param)
    (h : ∀ p ∈ ps, opt_fixed rule p) :
    ps.map (fix_optional_one rule verb) = ps := by
  induction ps with
  | nil => rfl
  | cons p rest ih =>
    rw [List.map_cons, fix_optional_one_opt_fixed rule verb p (h p (by simp)),
      ih (fun q hq => h q (by simp [hq]))]

theorem add_parameter_snd_of_present (ps : List Param) (n : String) (t : Option String)
    (i : String) (r : Bool) (d : Option String) (f : Option String) (af : Bool)
    (h : (get_parameter n ps).isSome) :
    (add_parameter ps n t i r d f af).2 = ps := by
  rw [add_parameter_of_some ps n t i r d f af h]

theorem add_or_fix_one_establishes (rule : Rule) (verb : String) (ps : List Param)
    (n : String) : first_fixed rule verb n (add_or_fix_one rule verb ps n) := by
  unfold first_fixed
  simp only [required_meta]
  rcases htf : required_param_type rule n
    (get_param_location (some (Value.str n)) rule verb) with ⟨t1, t2⟩
  cases hg : get_parameter n ps with
  | none =>
    rw [add_or_fix_one_of_absent rule verb ps n hg, htf]
    refine ⟨build_new_param n t1 (get_param_location (some (Value.str n)) rule verb)
      true t2 none, ?_, build_new_param_required .., ?_, ?_, ?_⟩
    · simp [get_parameter, build_new_param_name]
    · rw [build_new_param_in]
      rfl
    · intro ht
      rw [build_new_param_type]
      cases t1 with
      | none => simp at ht
      | some t => simp
    · intro hf
      rw [build_new_param_format]
      cases t2 with
      | none => simp at hf
      | some f => simp
  | some p =>
    rw [add_or_fix_one_of_present rule verb ps n (by simp [hg]), htf]
    refine ⟨fix_existing_param (get_param_location (some (Value.str n)) rule verb)
      (t1, t2) p, ?_, fix_existing_param_required _ _ p, ?_, ?_, ?_⟩
    · exact get_parameter_update_self n _ ps p hg (fix_existing_param_name _ _ p)
    · rw [fix_existing_param_in]
      rfl
    · intro ht
      cases t1 with
      | none => simp at ht
      | some t =>
        rw [fix_existing_param_type_some]
        rfl
    · intro hf
      cases t2 with
      | none => simp at hf
      | some f =>
        rw [fix_existing_param_format_some]
        rfl

theorem add_or_fix_one_preserves_first_fixed (rule : Rule) (verb : String)
    (ps : List Param) (n n' : String) (hne : n' ≠ n)
    (h : first_fixed rule verb n ps) :
    first_fixed rule verb n (add_or_fix_one rule verb ps n') := by
  obtain ⟨p, hget, h1, h2, h3, h4⟩ := h
  cases hg : get_parameter n' ps with
  | none =>
    rw [add_or_fix_one_of_absent rule verb ps n' hg]
    refine ⟨p, ?_, h1, h2, h3, h4⟩
    simp only [get_parameter, build_new_param_name]
    rw [if_neg (by simp [hne]), hget]
  | some q =>
    rw [add_or_fix_one_of_present rule verb ps n' (by simp [hg])]
    refine ⟨p, ?_, h1, h2, h3, h4⟩
    rw [get_parameter_update_ne n' n _ ps (Ne.symm hne)
      (fun r => fix_existing_param_name _ _ r), hget]

theorem fold_preserves_first_fixed (rule : Rule) (verb : String) (names : List String)
    (n : String) (hne : ∀ n' ∈ names, n' ≠ n) (ps : List Param)
    (h : first_fixed rule verb n ps) :
    first_fixed rule verb n (names.foldl (add_or_fix_one rule verb) ps) := by
  induction names generalizing ps with
  | nil => exact h
  | cons m rest ih =>
    rw [List.foldl_cons]
    exact ih (fun n' hn' => hne n' (by simp [hn']))
      (add_or_fix_one rule verb ps m)
      (add_or_fix_one_preserves_first_fixed rule verb ps n m (hne m (by simp)) h)

theorem fold_establishes_first_fixed (rule : Rule) (verb : String) (names : List String)
    (hnodup : names.Nodup) (n : String) (hn : n ∈ names) (ps : List Param) :
    first_fixed rule verb n (names.foldl (add_or_fix_one rule verb) ps) := by
  induction names generalizing ps with
  | nil => simp at hn
  | cons m rest ih =>
    rw [List.foldl_cons]
    rcases List.mem_cons.mp hn with heq | hn'
    · subst heq
      exact fold_preserves_first_fixed rule verb rest n
        (fun n' hn' heq' => (List.nodup_cons.mp hnodup).1 (heq' ▸ hn'))
        (add_or_fix_one rule verb ps n)
        (add_or_fix_one_establishes rule verb ps n)
    · exact ih (List.nodup_cons.mp hnodup).2 hn' (add_or_fix_one rule verb ps m)

theorem map_preserves_first_fixed (rule : Rule) (verb : String) (n : String)
    (ps : List Param) (hmem : n ∈ union_args rule)
    (h : first_fixed rule verb n ps) :
    first_fixed rule verb n (ps.map (fix_optional_one rule verb)) := by
  obtain ⟨p, hget, h1, h2, h3, h4⟩ := h
  have hname := get_parameter_name_eq n ps p hget
  have hskip : fix_optional_one rule verb p = p :=
    fix_optional_one_of_union rule verb p (by rw [hname]; simp [name_in_args, hmem])
  refine ⟨p, ?_, h1, h2, h3, h4⟩
  rw [get_parameter_map n _ ps (fun q => fix_optional_one_name rule verb q), hget]
  simp [hskip]

theorem add_preserves_first_fixed (rule : Rule) (verb : String) (n : String)
    (ps : List Param) (n' : String) (t : Option String) (i : String) (r : Bool)
    (d : Option String) (f : Option String) (af : Bool)
    (h : first_fixed rule verb n ps) :
    first_fixed rule verb n ((add_parameter ps n' t i r d f af).2) := by
  obtain ⟨p, hget, h1, h2, h3, h4⟩ := h
  exact ⟨p, get_parameter_add_of_some ps n' n t i r d f af p hget, h1, h2, h3, h4⟩

theorem map_establishes_opt_fixed (rule : Rule) (verb : String) (ps : List Param) :
    ∀ q ∈ ps.map (fix_optional_one rule verb), opt_fixed rule q := by
  intro q hq
  obtain ⟨p, hp, rfl⟩ := List.mem_map.mp hq
  by_cases h : name_in_args (dget p ParameterAttributeEnum.NAME) (union_args rule) = true
  · left
    rw [fix_optional_one_name rule verb p]
    exact h
  · right
    rw [Bool.not_eq_true] at h
    constructor
    · rw [fix_optional_one_required rule verb p h]
      rfl
    · rw [fix_optional_one_in rule verb p h]
      rfl

theorem add_preserves_opt_fixed (rule : Rule) (ps : List Param) (n : String)
    (t : Option String) (i : String) (r : Bool) (d : Option String)
    (f : Option String) (af : Bool) (h : ∀ q ∈ ps, opt_fixed rule q) :
    ∀ q ∈ (add_parameter ps n t i r d f af).2, opt_fixed rule q := by
  intro q hq
  have hbnp : opt_fixed rule (build_new_param n t i r f d) := by
    right
    constructor
    · rw [build_new_param_required]
      rfl
    · rw [build_new_param_in]
      rfl
  cases hg : get_parameter n ps with
  | some p =>
    rw [add_parameter_of_some ps n t i r d f af (by simp [hg])] at hq
    exact h q hq
  | none =>
    cases af with
    | true =>
      rw [add_parameter_of_none_first ps n t i r d f hg] at hq
      rcases List.mem_cons.mp hq with heq | hq'
      · rw [heq]
        exact hbnp
      · exact h q hq'
    | false =>
      rw [add_parameter_of_none_append ps n t i r d f hg] at hq
      rcases List.mem_append.mp hq with hq' | hq'
      · exact h q hq'
      · rw [List.mem_singleton.mp hq']
        exact hbnp

theorem present_after_add_self (ps : List Param) (n : String) (t : Option String)
    (i : String) (r : Bool) (d : Option String) (f : Option String) (af : Bool) :
    (get_parameter n ((add_parameter ps n t i r d f af).2)).isSome := by
  cases hg : get_parameter n ps with
  | some p =>
    rw [add_parameter_snd_of_present ps n t i r d f af (by simp [hg]), hg]
    rfl
  | none =>
    rw [get_parameter_add_self_of_none ps n t i r d f af hg]
    rfl

theorem present_preserved_by_add (ps : List Param) (n n' : String) (t : Option String)
    (i : String) (r : Bool) (d : Option String) (f : Option String) (af : Bool)
    (h : (get_parameter n ps).isSome) :
    (get_parameter n ((add_parameter ps n' t i r d f af).2)).isSome := by
  cases hg : get_parameter n ps with
  | none => rw [hg] at h; simp at h
  | some p =>
    rw [get_parameter_add_of_some ps n' n t i r d f af p hg]
    rfl

theorem pipeline_first_fixed (env : Env) (rule : Rule) (verb : String) (ps : List Param)
    (n : String) (hn : n ∈ union_args rule) :
    first_fixed rule verb n (params_pipeline env rule verb ps) := by
  simp only [params_pipeline]
  have h1 := fold_establishes_first_fixed rule verb (union_args rule)
    (List.nodup_dedup _) n hn ps
  have h2 := map_preserves_first_fixed rule verb n _ hn h1
  by_cases hp : rule.is_paged = true
  · rw [if_pos hp]
    exact add_preserves_first_fixed _ _ _ _ _ _ _ _ _ _ _
      (add_preserves_first_fixed _ _ _ _ _ _ _ _ _ _ _
        (add_preserves_first_fixed _ _ _ _ _ _ _ _ _ _ _
          (add_preserves_first_fixed _ _ _ _ _ _ _ _ _ _ _ h2)))
  · rw [if_neg hp]
    exact add_preserves_first_fixed _ _ _ _ _ _ _ _ _ _ _
      (add_preserves_first_fixed _ _ _ _ _ _ _ _ _ _ _ h2)

theorem pipeline_opt_fixed (env : Env) (rule : Rule) (verb : String) (ps : List Param) :
    ∀ q ∈ params_pipeline env rule verb ps, opt_fixed rule q := by
  simp only [params_pipeline]
  by_cases hp : rule.is_paged = true
  · rw [if_pos hp]
    exact add_preserves_opt_fixed _ _ _ _ _ _ _ _ _
      (add_preserves_opt_fixed _ _ _ _ _ _ _ _ _
        (add_preserves_opt_fixed _ _ _ _ _ _ _ _ _
          (add_preserves_opt_fixed _ _ _ _ _ _ _ _ _
            (map_establishes_opt_fixed rule verb _))))
  · rw [if_neg hp]
    exact add_preserves_opt_fixed _ _ _ _ _ _ _ _ _
      (add_preserves_opt_fixed _ _ _ _ _ _ _ _ _
        (map_establishes_opt_fixed rule verb _))

theorem pipeline_locale_timezone_present (env : Env) (rule : Rule) (verb : String)
    (ps : List Param) :
    (get_parameter env.locale_param_name (params_pipeline env rule verb ps)).isSome ∧
    (get_parameter env.timezone_param_name (params_pipeline env rule verb ps)).isSome := by
  simp only [params_pipeline]
  exact ⟨present_preserved_by_add _ _ _ _ _ _ _ _ _
      (present_after_add_self _ _ _ _ _ _ _ _),
    present_after_add_self _ _ _ _ _ _ _ _⟩

theorem pipeline_paging_present (env : Env) (rule : Rule) (verb : String)
    (ps : List Param) (hp : rule.is_paged = true) :
    (get_parameter env.page_param_name (params_pipeline env rule verb ps)).isSome ∧
    (get_parameter env.page_size_param_name (params_pipeline env rule verb ps)).isSome := by
  simp only [params_pipeline]
  rw [if_pos hp]
  exact ⟨present_preserved_by_add _ _ _ _ _ _ _ _ _
      (present_preserved_by_add _ _ _ _ _ _ _ _ _
        (present_preserved_by_add _ _ _ _ _ _ _ _ _
          (present_after_add_self _ _ _ _ _ _ _ _))),
    present_preserved_by_add _ _ _ _ _ _ _ _ _
      (present_preserved_by_add _ _ _ _ _ _ _ _ _
        (present_after_add_self _ _ _ _ _ _ _ _))⟩

theorem params_pipeline_idem (env : Env) (rule : Rule) (verb : String)
    (ps : List Param) :
    params_pipeline env rule verb (params_pipeline env rule verb ps) =
      params_pipeline env rule verb ps := by
  have hff := pipeline_first_fixed env rule verb ps
  have hof := pipeline_opt_fixed env rule verb ps
  have hlt := pipeline_locale_timezone_present env rule verb ps
  set P1 := params_pipeline env rule verb ps with hP1
  rw [show params_pipeline env rule verb P1 =
    (add_parameter ((add_parameter
      (if rule.is_paged then
        (add_parameter ((add_parameter
          ((P1.map (fix_optional_one rule verb)))
          env.page_param_name (some ParameterTypeEnum.INTEGER)
          ParameterLocationEnum.QUERY false (some "page number to be get.")
          none false).2) env.page_size_param_name (some ParameterTypeEnum.INTEGER)
          ParameterLocationEnum.QUERY false (some "page size to be get.")
          none false).2
      else (P1.map (fix_optional_one rule verb)))
      env.locale_param_name (some ParameterTypeEnum.STRING)
      ParameterLocationEnum.QUERY false
      (some "request locale to be sent. for example en, fa, fr ...") none false).2)
      env.timezone_param_name (some ParameterTypeEnum.STRING)
      ParameterLocationEnum.QUERY false
      (some "request timezone to be sent. for example UTC, Asia/Tehran ...")
      none false).2 from by
      simp only [params_pipeline]
      rw [fold_eq_self rule verb (union_args rule) P1 (fun n hn => hff n hn)]]
  rw [map_fix_optional_eq_self rule verb P1 hof]
  by_cases hp : rule.is_paged = true
  · have hpg := pipeline_paging_present env rule verb ps hp
    rw [← hP1] at hpg
    rw [if_pos hp,
      add_parameter_snd_of_present _ _ _ _ _ _ _ _ hpg.1,
      add_parameter_snd_of_present _ _ _ _ _ _ _ _ hpg.2,
      add_parameter_snd_of_present _ _ _ _ _ _ _ _ hlt.1,
      add_parameter_snd_of_present _ _ _ _ _ _ _ _ hlt.2]
  · rw [if_neg hp,
      add_parameter_snd_of_present _ _ _ _ _ _ _ _ hlt.1,
      add_parameter_snd_of_present _ _ _ _ _ _ _ _ hlt.2]

/-- Claim C2: running `_fix_metadata` a second time on the fragment produced
by a first run changes nothing in the `parameters` section — in particular
it creates no duplicate parameter entries and no duplicate locale/timezone
entries, and the (multi)set of parameter names after the second pass equals
the one after the first pass. -/
theorem c2_fix_metadata_idempotent_parameters (env : Env) (rule : Rule) (verb : String)
    (swag : Swag) :
    (fix_metadata env rule verb (fix_metadata env rule verb swag)).parameters =
      (fix_metadata env rule verb swag).parameters ∧
    (fix_metadata env rule verb (fix_metadata env rule verb swag)).params_of.map
        (fun p => dget p ParameterAttributeEnum.NAME) =
      (fix_metadata env rule verb swag).params_of.map
        (fun p => dget p ParameterAttributeEnum.NAME) := by
  have hpf : (fix_metadata env rule verb swag).params_of =
      params_pipeline env rule verb swag.params_of := by
    unfold Swag.params_of
    rw [fix_metadata_parameters]
    rfl
  have hmain : (fix_metadata env rule verb (fix_metadata env rule verb swag)).parameters =
      (fix_metadata env rule verb swag).parameters := by
    rw [fix_metadata_parameters env rule verb (fix_metadata env rule verb swag),
      fix_metadata_parameters env rule verb swag, hpf, params_pipeline_idem]
  refine ⟨hmain, ?_⟩
  have hpf2 : (fix_metadata env rule verb (fix_metadata env rule verb swag)).params_of =
      (fix_metadata env rule verb swag).params_of := by
    unfold Swag.params_of
    rw [hmain]
  rw [hpf2]

theorem update_parameter_split (n : String) (f : Param → Param) (l1 l2 : List Param)
    (p : Param) (hp : dget p ParameterAttributeEnum.NAME ≠ some (Value.str n)) :
    update_parameter n f (l1 ++ p :: l2) = update_parameter n f l1 ++ p :: l2 ∨
    update_parameter n f (l1 ++ p :: l2) = l1 ++ p :: update_parameter n f l2 := by
  induction l1 with
  | nil =>
    right
    simp [update_parameter, hp]
  | cons q rest ih =>
    by_cases hq : dget q ParameterAttributeEnum.NAME = some (Value.str n)
    · left
      simp [update_parameter, hq]
    · rcases ih with h | h
      · left
        simp only [List.cons_append, update_parameter, if_neg hq]
        exact congrArg (List.cons q) h
      · right
        simp only [List.cons_append, update_parameter, if_neg hq]
        exact congrArg (List.cons q) h

theorem get_parameter_of_split (nm : String) (l1 l2 : List Param) (p : Param)
    (hl1 : ∀ q ∈ l1, dget q ParameterAttributeEnum.NAME ≠ some (Value.str nm))
    (hp : dget p ParameterAttributeEnum.NAME = some (Value.str nm)) :
    get_parameter nm (l1 ++ p :: l2) = some p := by
  rw [get_parameter_append_of_none nm l1 _ ((get_parameter_none_iff nm l1).mpr hl1)]
  simp [get_parameter, hp]

theorem no_name_iff (nm : String) (ps : List Param) :
    no_name nm ps ↔ get_parameter nm ps = none := (get_parameter_none_iff nm ps).symm

theorem add_or_fix_one_preserves_no_name (rule : Rule) (verb : String) (ps : List Param)
    (nm n' : String) (hne : n' ≠ nm) (h : no_name nm ps) :
    no_name nm (add_or_fix_one rule verb ps n') := by
  cases hg : get_parameter n' ps with
  | none =>
    rw [add_or_fix_one_of_absent rule verb ps n' hg]
    intro q hq
    rcases List.mem_cons.mp hq with heq | hq'
    · rw [heq, build_new_param_name]
      simp [hne]
    · exact h q hq'
  | some p =>
    rw [add_or_fix_one_of_present rule verb ps n' (by simp [hg])]
    intro q hq
    rcases mem_update_parameter n' _ ps q hq with hq' | ⟨r, hr, heq⟩
    · exact h q hq'
    · rw [heq, fix_existing_param_name]
      exact h r hr

theorem add_or_fix_one_establishes_required_led (rule : Rule) (verb : String)
    (ps : List Param) (nm : String) (h : no_name nm ps) :
    required_led rule verb nm (add_or_fix_one rule verb ps nm) := by
  have hg : get_parameter nm ps = none := (no_name_iff nm ps).mp h
  rw [add_or_fix_one_of_absent rule verb ps nm hg]
  refine ⟨[], build_new_param nm
    (required_param_type rule nm (get_param_location (some (Value.str nm)) rule verb)).1
    (get_param_location (some (Value.str nm)) rule verb) true
    (required_param_type rule nm (get_param_location (some (Value.str nm)) rule verb)).2
    none, ps, by simp, build_new_param_name .., build_new_param_required ..,
    ?_, ?_, ?_, by simp, h⟩
  · rw [build_new_param_in]
    rfl
  · rw [build_new_param_type]
    rfl
  · rw [build_new_param_format]
    rfl

theorem add_or_fix_one_preserves_required_led (rule : Rule) (verb : String)
    (ps : List Param) (nm n' : String) (hne : n' ≠ nm)
    (h : required_led rule verb nm ps) :
    required_led rule verb nm (add_or_fix_one rule verb ps n') := by
  obtain ⟨l1, p, l2, heq, hname, hreq, hin, htype, hfmt, hl1, hl2⟩ := h
  cases hg : get_parameter n' ps with
  | none =>
    rw [add_or_fix_one_of_absent rule verb ps n' hg, heq]
    refine ⟨build_new_param n'
      (required_param_type rule n' (get_param_location (some (Value.str n')) rule verb)).1
      (get_param_location (some (Value.str n')) rule verb) true
      (required_param_type rule n' (get_param_location (some (Value.str n')) rule verb)).2
      none :: l1, p, l2, by simp, hname, hreq, hin, htype, hfmt, ?_, hl2⟩
    intro q hq
    rcases List.mem_cons.mp hq with heq' | hq'
    · constructor
      · rw [heq', build_new_param_name]
        simp [hne]
      · rw [heq', build_new_param_required]
    · exact hl1 q hq'
  | some r =>
    rw [add_or_fix_one_of_present rule verb ps n' (by simp [hg]), heq]
    have hpne : dget p ParameterAttributeEnum.NAME ≠ some (Value.str n') := by
      rw [hname]
      simp only [ne_eq, Option.some.injEq, Value.str.injEq]
      exact fun hc => hne hc.symm
    rcases update_parameter_split n' _ l1 l2 p hpne with hcase | hcase
    · rw [hcase]
      refine ⟨update_parameter n' _ l1, p, l2, rfl, hname, hreq, hin, htype, hfmt,
        ?_, hl2⟩
      intro q hq
      rcases mem_update_parameter n' _ l1 q hq with hq' | ⟨s, hs, heq'⟩
      · exact hl1 q hq'
      · constructor
        · rw [heq', fix_existing_param_name]
          exact (hl1 s hs).1
        · rw [heq', fix_existing_param_required]
    · rw [hcase]
      refine ⟨l1, p, update_parameter n' _ l2, rfl, hname, hreq, hin, htype, hfmt,
        hl1, ?_⟩
      intro q hq
      rcases mem_update_parameter n' _ l2 q hq with hq' | ⟨s, hs, heq'⟩
      · exact hl2 q hq'
      · rw [heq', fix_existing_param_name]
        exact hl2 s hs

theorem fold_preserves_required_led (rule : Rule) (verb : String) (names : List String)
    (nm : String) (hne : ∀ n' ∈ names, n' ≠ nm) (ps : List Param)
    (h : required_led rule verb nm ps) :
    required_led rule verb nm (names.foldl (add_or_fix_one rule verb) ps) := by
  induction names generalizing ps with
  | nil => exact h
  | cons m rest ih =>
    rw [List.foldl_cons]
    exact ih (fun n' hn' => hne n' (by simp [hn'])) (add_or_fix_one rule verb ps m)
      (add_or_fix_one_preserves_required_led rule verb ps nm m (hne m (by simp)) h)

theorem fold_establishes_required_led (rule : Rule) (verb : String) (names : List String)
    (hnodup : names.Nodup) (nm : String) (hn : nm ∈ names) (ps : List Param)
    (h : no_name nm ps) :
    required_led rule verb nm (names.foldl (add_or_fix_one rule verb) ps) := by
  induction names generalizing ps with
  | nil => simp at hn
  | cons m rest ih =>
    rw [List.foldl_cons]
    rcases List.mem_cons.mp hn with heq | hn'
    · subst heq
      exact fold_preserves_required_led rule verb rest nm
        (fun n' hn' heq' => (List.nodup_cons.mp hnodup).1 (heq' ▸ hn'))
        (add_or_fix_one rule verb ps nm)
        (add_or_fix_one_establishes_required_led rule verb ps nm h)
    · exact ih (List.nodup_cons.mp hnodup).2 hn' (add_or_fix_one rule verb ps m)
        (add_or_fix_one_preserves_no_name rule verb ps nm m
          (fun heq' => (List.nodup_cons.mp hnodup).1 (heq' ▸ hn')) h)

theorem map_preserves_required_led (rule : Rule) (verb : String) (nm : String)
    (ps : List Param) (hmem : nm ∈ union_args rule)
    (h : required_led rule verb nm ps) :
    required_led rule verb nm (ps.map (fix_optional_one rule verb)) := by
  obtain ⟨l1, p, l2, heq, hname, hreq, hin, htype, hfmt, hl1, hl2⟩ := h
  rw [heq, List.map_append, List.map_cons]
  have hskip : fix_optional_one rule verb p = p :=
    fix_optional_one_of_union rule verb p (by rw [hname]; simp [name_in_args, hmem])
  rw [hskip]
  refine ⟨l1.map (fix_optional_one rule verb), p, l2.map (fix_optional_one rule verb),
    rfl, hname, hreq, hin, htype, hfmt, ?_, ?_⟩
  · intro q hq
    obtain ⟨s, hs, rfl⟩ := List.mem_map.mp hq
    constructor
    · rw [fix_optional_one_name]
      exact (hl1 s hs).1
    · exact fix_optional_one_required_true rule verb s (hl1 s hs).2
  · intro q hq
    obtain ⟨s, hs, rfl⟩ := List.mem_map.mp hq
    rw [fix_optional_one_name]
    exact hl2 s hs

theorem add_preserves_required_led (rule : Rule) (verb : String) (nm : String)
    (ps : List Param) (n' : String) (t : Option String) (i : String) (r : Bool)
    (d : Option String) (f : Option String)
    (h : required_led rule verb nm ps) :
    required_led rule verb nm ((add_parameter ps n' t i r d f false).2) := by
  obtain ⟨l1, p, l2, heq, hname, hreq, hin, htype, hfmt, hl1, hl2⟩ := h
  cases hg : get_parameter n' ps with
  | some q =>
    rw [add_parameter_snd_of_present ps n' t i r d f false (by simp [hg])]
    exact ⟨l1, p, l2, heq, hname, hreq, hin, htype, hfmt, hl1, hl2⟩
  | none =>
    have hne : n' ≠ nm := by
      intro hc
      subst hc
      rw [heq, get_parameter_of_split n' l1 l2 p (fun q hq => (hl1 q hq).1) hname] at hg
      exact Option.noConfusion hg
    rw [add_parameter_of_none_append ps n' t i r d f hg, heq]
    refine ⟨l1, p, l2 ++ [build_new_param n' t i r f d], by simp, hname, hreq, hin,
      htype, hfmt, hl1, ?_⟩
    intro q hq
    rcases List.mem_append.mp hq with hq' | hq'
    · exact hl2 q hq'
    · rw [List.mem_singleton.mp hq', build_new_param_name]
      simp [hne]

theorem pipeline_required_led (env : Env) (rule : Rule) (verb : String)
    (ps : List Param) (nm : String) (hmem : nm ∈ union_args rule)
    (h : no_name nm ps) :
    required_led rule verb nm (params_pipeline env rule verb ps) := by
  simp only [params_pipeline]
  have h1 := fold_establishes_required_led rule verb (union_args rule)
    (List.nodup_dedup _) nm hmem ps h
  have h2 := map_preserves_required_led rule verb nm _ hmem h1
  by_cases hp : rule.is_paged = true
  · rw [if_pos hp]
    exact add_preserves_required_led _ _ _ _ _ _ _ _ _ _
      (add_preserves_required_led _ _ _ _ _ _ _ _ _ _
        (add_preserves_required_led _ _ _ _ _ _ _ _ _ _
          (add_preserves_required_led _ _ _ _ _ _ _ _ _ _ h2)))
  · rw [if_neg hp]
    exact add_preserves_required_led _ _ _ _ _ _ _ _ _ _
      (add_preserves_required_led _ _ _ _ _ _ _ _ _ _ h2)

end Idempotence

/-- Counterexample to claim C1 as stated: with an integer path parameter
`id` and a fragment that already declares `id` with an author-provided
`in='query'`, the fixed operation's single `id` entry keeps `in='query'`
(author values win over the inferred `'path'`), so the claimed
`in='path'` does not hold, although the fragment's parameter names are
unique. -/
theorem c1_required_id_counterexample :
    "id" ∈ rule_id_int.arguments ∧
    rule_id_int.get_argument_type "id" = ArgType.int ∧
    (swag_id_query.params_of.map (fun p => dget p ParameterAttributeEnum.NAME)).Nodup ∧
    (get_parameter "id"
        (fix_metadata sample_env rule_id_int "get" swag_id_query).params_of).map
      (fun p => dget p ParameterAttributeEnum.IN) = some (some (Value.str "query")) ∧
    some (some (Value.str "query")) ≠
      some (some (Value.str ParameterLocationEnum.PATH)) := by
  decide

/-- Claim C1 (amended): for a route with a required integer path parameter
`id`, when the incoming fragment (with unique parameter names) does not
already declare a parameter named `id`, the fixed operation's parameter
list contains exactly one entry named `id`, with `required=true`,
`in='path'` and `type='integer'`, inserted before all parameters not
already required (every entry preceding it is required); when the fragment
does declare `id`, the entry is only forced `required=true` with `in` and
`type` filled if absent, so author-provided values win (see the
counterexample). -/
theorem c1_required_id_amended (env : Env) (rule : Rule) (verb : String) (swag : Swag)
    (hid : "id" ∈ rule.arguments)
    (htype : rule.get_argument_type "id" = ArgType.int)
    (huniq : (swag.params_of.map (fun p => dget p ParameterAttributeEnum.NAME)).Nodup)
    (habs : get_parameter "id" swag.params_of = none) :
    ∃ l1 p l2, (fix_metadata env rule verb swag).params_of = l1 ++ p :: l2 ∧
      dget p ParameterAttributeEnum.NAME = some (Value.str "id") ∧
      dget p ParameterAttributeEnum.REQUIRED = some (Value.bool true) ∧
      dget p ParameterAttributeEnum.IN = some (Value.str ParameterLocationEnum.PATH) ∧
      dget p ParameterAttributeEnum.TYPE =
        some (Value.str ParameterTypeEnum.INTEGER) ∧
      (∀ q ∈ l1, dget q ParameterAttributeEnum.NAME ≠ some (Value.str "id") ∧
        dget q ParameterAttributeEnum.REQUIRED = some (Value.bool true)) ∧
      (∀ q ∈ l2, dget q ParameterAttributeEnum.NAME ≠ some (Value.str "id")) ∧
      (fix_metadata env rule verb swag).params_of.countP
        (fun q => decide (dget q ParameterAttributeEnum.NAME =
          some (Value.str "id"))) = 1 := by
  have hmem : "id" ∈ union_args rule := by
    unfold union_args
    rw [List.mem_dedup]
    exact List.mem_append.mpr (Or.inr hid)
  have hpf : (fix_metadata env rule verb swag).params_of =
      params_pipeline env rule verb swag.params_of := by
    unfold Swag.params_of
    rw [fix_metadata_parameters]
    rfl
  have hled := pipeline_required_led env rule verb swag.params_of "id" hmem
    ((no_name_iff "id" swag.params_of).mpr habs)
  obtain ⟨l1, p, l2, heq, hname, hreq, hin, htp, hfmt, hl1, hl2⟩ := hled
  have hloc : get_param_location (some (Value.str "id")) rule verb =
      ParameterLocationEnum.PATH := by
    unfold get_param_location name_in_args
    simp [hid]
  refine ⟨l1, p, l2, by rw [hpf, heq], hname, hreq, ?_, ?_, hl1, hl2, ?_⟩
  · rw [hin]
    simp only [required_meta]
    rw [hloc]
  · rw [htp]
    simp only [required_meta]
    rw [hloc]
    simp [required_param_type, htype]
  · rw [hpf, heq, List.countP_append, List.countP_cons_of_pos _ _ (by simp [hname])]
    have hz1 : l1.countP (fun q => decide (dget q ParameterAttributeEnum.NAME =
        some (Value.str "id"))) = 0 := by
      rw [List.countP_eq_zero]
      intro q hq
      simp [(hl1 q hq).1]
    have hz2 : l2.countP (fun q => decide (dget q ParameterAttributeEnum.NAME =
        some (Value.str "id"))) = 0 := by
      rw [List.countP_eq_zero]
      intro q hq
      simp [hl2 q hq]
    rw [hz1, hz2]

/-- Witness for the amended claim C1 at a concrete input: the route with
integer path argument `id` and a fragment declaring only `filter`. -/
theorem c1_required_id_amended_witness :
    "id" ∈ rule_id_int.arguments ∧
    rule_id_int.get_argument_type "id" = ArgType.int ∧
    (swag_filter.params_of.map (fun p => dget p ParameterAttributeEnum.NAME)).Nodup ∧
    get_parameter "id" swag_filter.params_of = none ∧
    (∃ l1 p l2,
      (fix_metadata sample_env rule_id_int "get" swag_filter).params_of =
        l1 ++ p :: l2 ∧
      dget p ParameterAttributeEnum.NAME = some (Value.str "id") ∧
      dget p ParameterAttributeEnum.REQUIRED = some (Value.bool true) ∧
      dget p ParameterAttributeEnum.IN = some (Value.str ParameterLocationEnum.PATH) ∧
      dget p ParameterAttributeEnum.TYPE =
        some (Value.str ParameterTypeEnum.INTEGER) ∧
      (∀ q ∈ l1, dget q ParameterAttributeEnum.NAME ≠ some (Value.str "id") ∧
        dget q ParameterAttributeEnum.REQUIRED = some (Value.bool true)) ∧
      (∀ q ∈ l2, dget q ParameterAttributeEnum.NAME ≠ some (Value.str "id")) ∧
      (fix_metadata sample_env rule_id_int "get" swag_filter).params_of.countP
        (fun q => decide (dget q ParameterAttributeEnum.NAME =
          some (Value.str "id"))) = 1) :=
  ⟨by decide, rfl, by decide, rfl,
   c1_required_id_amended sample_env rule_id_int "get" swag_filter
     (by decide) rfl (by decide) rfl⟩

end Pyrin
